import Mathlib

/-!
# Verification of the ASIMD instruction-encoding layer

A shallow embedding of the vector-instruction encoder (the mnemonic layer,
the category-level word builders, and the element-size model) together with
theorems about its shift, index and immediate encodings.

Conventions of the embedding:

* Machine words are `Nat`; all bit manipulation uses `<<<`, `>>>`, `|||`,
  `&&&` exactly as the source does, with 32-bit wrap-around made explicit
  where the source relies on `uint32_t` arithmetic (`u32sub`).
* A fatal contract-violation check (`LOGMAN_THROW_A_FMT`, which aborts the
  process) is modelled by returning `none`; a successful encode returns
  `some word`, the single 32-bit word appended to the output sink.
* Register identifiers are their raw indices `Fin 32`; the `QRegister` /
  `DRegister` distinction of the templated emitters is an explicit `q : Bool`
  argument (`true` for the 128-bit `QRegister` view).
-/

namespace ARMEmitter

/-- Element size selector, an ordered enumeration of the lane widths
`{8,16,32,64,128}` bits. Underlying enumerant values are `0,1,2,3,4`. -/
inductive SubRegSize where
  | i8Bit
  | i16Bit
  | i32Bit
  | i64Bit
  | i128Bit
deriving DecidableEq, Repr

/-- The raw enumerant value of a `SubRegSize` (`FEXCore::ToUnderlying`). -/
def SubRegSize.toUnderlying : SubRegSize → Nat
  | .i8Bit => 0
  | .i16Bit => 1
  | .i32Bit => 2
  | .i64Bit => 3
  | .i128Bit => 4

/-- Modelled from the spec: the element-size model (missing `Emitter.h`)
maps each enumerant of the ordered `{8,16,32,64,128}`-bit enumeration to its
width in bits. -/
def SubRegSizeInBits : SubRegSize → Nat
  | .i8Bit => 8
  | .i16Bit => 16
  | .i32Bit => 32
  | .i64Bit => 64
  | .i128Bit => 128

/-- Modelled from the spec: a raw integer cast back into the element-size
enumeration (`SubRegSize(n)` in the source). A value outside the enumeration
has no enumerant; per the spec, requesting a narrow/widen step outside
`{8..64}` is a contract violation, so the cast of such a value is `none`. -/
def SubRegSize.ofUnderlying : Nat → Option SubRegSize
  | 0 => some .i8Bit
  | 1 => some .i16Bit
  | 2 => some .i32Bit
  | 3 => some .i64Bit
  | 4 => some .i128Bit
  | _ => none

/-- Modelled from the spec: the predicate gating floating-point mnemonics,
true exactly for the `{16,32,64}`-bit element sizes. -/
def IsStandardFloatSize (size : SubRegSize) : Bool :=
  size = .i16Bit || size = .i32Bit || size = .i64Bit

/-- A register identifier: a raw index into the 32-entry vector register
file. Width views (`VRegister`/`QRegister`/`DRegister` conversions) keep the
index unchanged, so only the index is carried. -/
abbrev VReg := Fin 32

/-- 32-bit unsigned subtraction with wrap-around, as computed on `uint32_t`
values in the source. -/
def u32sub (a b : Nat) : Nat := (a + (4294967296 - b % 4294967296)) % 4294967296

/-! ## Category encoders

Each category encoder assembles one 32-bit word from a fixed template plus
its variable fields, exactly mirroring the sequence of `Instr |= ...`
statements in the source. `Encode_rd`/`Encode_rn`/`Encode_rm` (missing
`Emitter.h`) are modelled from the spec's wire format: 5-bit register index
fields at bit 0 (rd), bit 5 (rn) and bit 16 (rm). -/

/-- The `Q` bit of a templated emitter: bit 30 set for the `QRegister`
(128-bit) instantiation, clear for `DRegister`. -/
def Qbit (q : Bool) : Nat := if q then 1 <<< 30 else 0

/-- Advanced SIMD shift by immediate category encoder. Asserts that the
high immediate part `immh` is nonzero before emitting. -/
def ASIMDShiftByImm (U immh immb opcode : Nat) (q : Bool) (rn rd : VReg) :
    Option Nat :=
  if immh = 0 then none
  else some ((0b0000111100000000000001 <<< 10) ||| Qbit q ||| (U <<< 29) |||
    (immh <<< 19) ||| (immb <<< 16) ||| (opcode <<< 11) ||| (rn.val <<< 5) |||
    rd.val)

/-- Advanced SIMD three same category encoder. -/
def ASIMD3Same (U : Nat) (size : SubRegSize) (opcode : Nat) (q : Bool)
    (rd rn rm : VReg) : Nat :=
  (0b0000111000100000000001 <<< 10) ||| Qbit q ||| (U <<< 29) |||
    (size.toUnderlying <<< 22) ||| (rm.val <<< 16) ||| (opcode <<< 11) |||
    (rn.val <<< 5) ||| rd.val

/-- Advanced SIMD three same (FP16) category encoder. -/
def ASIMDThreeSameFP16 (U a opcode : Nat) (q : Bool) (rm rn rd : VReg) : Nat :=
  (0b0000111001000000000001 <<< 10) ||| Qbit q ||| (U <<< 29) ||| (a <<< 23) |||
    (rm.val <<< 16) ||| (opcode <<< 11) ||| (rn.val <<< 5) ||| rd.val

/-- Advanced SIMD modified immediate category encoder: the 8-bit immediate is
scattered into `a:b:c` (bits 18-16) and `d:e:f:g:h` (bits 9-5). -/
def ASIMDModifiedImm (op cmode o2 imm : Nat) (q : Bool) (rd : VReg) : Nat :=
  (0b0000111100000000000001 <<< 10) ||| Qbit q ||| (op <<< 29) |||
    (((imm >>> 7) &&& 1) <<< 18) ||| (((imm >>> 6) &&& 1) <<< 17) |||
    (((imm >>> 5) &&& 1) <<< 16) ||| (cmode <<< 12) ||| (o2 <<< 11) |||
    (((imm >>> 4) &&& 1) <<< 9) ||| (((imm >>> 3) &&& 1) <<< 8) |||
    (((imm >>> 2) &&& 1) <<< 7) ||| (((imm >>> 1) &&& 1) <<< 6) |||
    (((imm >>> 0) &&& 1) <<< 5) ||| rd.val

/-- Advanced SIMD vector x indexed element category encoder. `M` (bit 20) and
`Rm` (bits 16-20) may overlap; the mnemonic layer is responsible for keeping
`rm < 16` whenever `M` is used as an index bit. -/
def ASIMDVectorXIndexedElement (U L M opcode H : Nat) (size : SubRegSize)
    (q : Bool) (rm rn rd : VReg) : Nat :=
  (0b0000111100000000000000 <<< 10) ||| Qbit q ||| (U <<< 29) |||
    (size.toUnderlying <<< 22) ||| (L <<< 21) ||| (M <<< 20) |||
    (rm.val <<< 16) ||| (opcode <<< 12) ||| (H <<< 11) ||| (rn.val <<< 5) |||
    rd.val

/-- Modelled from the spec: the Advanced SIMD copy category encoder (declared
in the missing `Emitter.h`): the A64 copy-class template with `imm5` at
bit 16 and `imm4` at bit 11. -/
def ASIMDScalarCopy (Q op imm5 imm4 : Nat) (rd rn : VReg) : Nat :=
  (Q <<< 30) ||| (op <<< 29) ||| (0b01110000 <<< 21) ||| (imm5 <<< 16) |||
    (imm4 <<< 11) ||| (1 <<< 10) ||| (rn.val <<< 5) ||| rd.val

/-! ## Mnemonic layer: Advanced SIMD shift by immediate

Each right-shift-like mnemonic encodes its shift as
`InvertedShift = SubregSizeInBits * 2 - Shift`, each left-shift-like one as
`InvertedShift = SubregSizeInBits + Shift`; the field is then split into
`immh = InvertedShift >> 3` and `immb = InvertedShift & 0b111`. Arithmetic
is on `uint32_t`, hence the `u32sub` / `% 2^32` wrapping. -/

def u32 (n : Nat) : Nat := n % 4294967296

def sshr (size : SubRegSize) (q : Bool) (rd rn : VReg) (Shift : Nat) :
    Option Nat :=
  if q = false ∧ size = .i64Bit then none else
  let SubregSizeInBits := SubRegSizeInBits size
  let InvertedShift := u32sub (SubregSizeInBits * 2) Shift
  ASIMDShiftByImm 0 (InvertedShift >>> 3) (InvertedShift &&& 0b111) 0b00000 q rn rd

def ssra (size : SubRegSize) (q : Bool) (rd rn : VReg) (Shift : Nat) :
    Option Nat :=
  if q = false ∧ size = .i64Bit then none else
  let SubregSizeInBits := SubRegSizeInBits size
  let InvertedShift := u32sub (SubregSizeInBits * 2) Shift
  ASIMDShiftByImm 0 (InvertedShift >>> 3) (InvertedShift &&& 0b111) 0b00010 q rn rd

def srshr (size : SubRegSize) (q : Bool) (rd rn : VReg) (Shift : Nat) :
    Option Nat :=
  if q = false ∧ size = .i64Bit then none else
  let SubregSizeInBits := SubRegSizeInBits size
  let InvertedShift := u32sub (SubregSizeInBits * 2) Shift
  ASIMDShiftByImm 0 (InvertedShift >>> 3) (InvertedShift &&& 0b111) 0b00100 q rn rd

def srsra (size : SubRegSize) (q : Bool) (rd rn : VReg) (Shift : Nat) :
    Option Nat :=
  if q = false ∧ size = .i64Bit then none else
  let SubregSizeInBits := SubRegSizeInBits size
  let InvertedShift := u32sub (SubregSizeInBits * 2) Shift
  ASIMDShiftByImm 0 (InvertedShift >>> 3) (InvertedShift &&& 0b111) 0b00110 q rn rd

def shl (size : SubRegSize) (q : Bool) (rd rn : VReg) (Shift : Nat) :
    Option Nat :=
  if q = false ∧ size = .i64Bit then none else
  let SubregSizeInBits := SubRegSizeInBits size
  let InvertedShift := u32 (SubregSizeInBits + Shift)
  ASIMDShiftByImm 0 (InvertedShift >>> 3) (InvertedShift &&& 0b111) 0b01010 q rn rd

def sqshl (size : SubRegSize) (q : Bool) (rd rn : VReg) (Shift : Nat) :
    Option Nat :=
  if q = false ∧ size = .i64Bit then none else
  let SubregSizeInBits := SubRegSizeInBits size
  let InvertedShift := u32 (SubregSizeInBits + Shift)
  ASIMDShiftByImm 0 (InvertedShift >>> 3) (InvertedShift &&& 0b111) 0b01110 q rn rd

def shrn (size : SubRegSize) (rd rn : VReg) (Shift : Nat) : Option Nat :=
  if size = .i64Bit then none else
  let SubregSizeInBits := SubRegSizeInBits size
  let InvertedShift := u32sub (SubregSizeInBits * 2) Shift
  ASIMDShiftByImm 0 (InvertedShift >>> 3) (InvertedShift &&& 0b111) 0b10000 false rn rd

def shrn2 (size : SubRegSize) (rd rn : VReg) (Shift : Nat) : Option Nat :=
  if size = .i64Bit then none else
  let SubregSizeInBits := SubRegSizeInBits size
  let InvertedShift := u32sub (SubregSizeInBits * 2) Shift
  ASIMDShiftByImm 0 (InvertedShift >>> 3) (InvertedShift &&& 0b111) 0b10000 true rn rd

def rshrn (size : SubRegSize) (rd rn : VReg) (Shift : Nat) : Option Nat :=
  if size = .i64Bit then none else
  let SubregSizeInBits := SubRegSizeInBits size
  let InvertedShift := u32sub (SubregSizeInBits * 2) Shift
  ASIMDShiftByImm 0 (InvertedShift >>> 3) (InvertedShift &&& 0b111) 0b10001 false rn rd

def rshrn2 (size : SubRegSize) (rd rn : VReg) (Shift : Nat) : Option Nat :=
  if size = .i64Bit then none else
  let SubregSizeInBits := SubRegSizeInBits size
  let InvertedShift := u32sub (SubregSizeInBits * 2) Shift
  ASIMDShiftByImm 0 (InvertedShift >>> 3) (InvertedShift &&& 0b111) 0b10001 true rn rd

def sqshrn (size : SubRegSize) (rd rn : VReg) (Shift : Nat) : Option Nat :=
  if size = .i64Bit then none else
  let SubregSizeInBits := SubRegSizeInBits size
  let InvertedShift := u32sub (SubregSizeInBits * 2) Shift
  ASIMDShiftByImm 0 (InvertedShift >>> 3) (InvertedShift &&& 0b111) 0b10010 false rn rd

def sqshrn2 (size : SubRegSize) (rd rn : VReg) (Shift : Nat) : Option Nat :=
  if size = .i64Bit then none else
  let SubregSizeInBits := SubRegSizeInBits size
  let InvertedShift := u32sub (SubregSizeInBits * 2) Shift
  ASIMDShiftByImm 0 (InvertedShift >>> 3) (InvertedShift &&& 0b111) 0b10010 true rn rd

def sqrshrn (size : SubRegSize) (rd rn : VReg) (Shift : Nat) : Option Nat :=
  if size = .i64Bit then none else
  let SubregSizeInBits := SubRegSizeInBits size
  let InvertedShift := u32sub (SubregSizeInBits * 2) Shift
  ASIMDShiftByImm 0 (InvertedShift >>> 3) (InvertedShift &&& 0b111) 0b10011 false rn rd

def sqrshrn2 (size : SubRegSize) (rd rn : VReg) (Shift : Nat) : Option Nat :=
  if size = .i64Bit then none else
  let SubregSizeInBits := SubRegSizeInBits size
  let InvertedShift := u32sub (SubregSizeInBits * 2) Shift
  ASIMDShiftByImm 0 (InvertedShift >>> 3) (InvertedShift &&& 0b111) 0b10011 true rn rd

def sshll (size : SubRegSize) (rd rn : VReg) (Shift : Nat) : Option Nat :=
  if size = .i8Bit then none else
  (SubRegSize.ofUnderlying (u32sub size.toUnderlying 1)).bind fun size1 =>
  let SubregSizeInBits := SubRegSizeInBits size1
  if ¬ (Shift < SubregSizeInBits) then none else
  let InvertedShift := u32 (SubregSizeInBits + Shift)
  ASIMDShiftByImm 0 (InvertedShift >>> 3) (InvertedShift &&& 0b111) 0b10100 false rn rd

def sshll2 (size : SubRegSize) (rd rn : VReg) (Shift : Nat) : Option Nat :=
  if size = .i8Bit then none else
  (SubRegSize.ofUnderlying (u32sub size.toUnderlying 1)).bind fun size1 =>
  let SubregSizeInBits := SubRegSizeInBits size1
  if ¬ (Shift < SubregSizeInBits) then none else
  let InvertedShift := u32 (SubregSizeInBits + Shift)
  ASIMDShiftByImm 0 (InvertedShift >>> 3) (InvertedShift &&& 0b111) 0b10100 true rn rd

def sxtl (size : SubRegSize) (rd rn : VReg) : Option Nat :=
  sshll size rd rn 0

def sxtl2 (size : SubRegSize) (rd rn : VReg) : Option Nat :=
  sshll2 size rd rn 0

def scvtf (size : SubRegSize) (q : Bool) (rd rn : VReg) (FractionalBits : Nat) :
    Option Nat :=
  if size = .i8Bit then none else
  if q = false ∧ size = .i64Bit then none else
  let SubregSizeInBits := SubRegSizeInBits size
  if ¬ (FractionalBits < SubregSizeInBits) then none else
  let InvertedFractionalBits := u32sub (SubregSizeInBits * 2) FractionalBits
  ASIMDShiftByImm 0 (InvertedFractionalBits >>> 3) (InvertedFractionalBits &&& 0b111)
    0b11100 q rn rd

def fcvtzs (size : SubRegSize) (q : Bool) (rd rn : VReg) (FractionalBits : Nat) :
    Option Nat :=
  if size = .i8Bit then none else
  if q = false ∧ size = .i64Bit then none else
  let SubregSizeInBits := SubRegSizeInBits size
  if ¬ (FractionalBits < SubregSizeInBits) then none else
  let InvertedFractionalBits := u32sub (SubregSizeInBits * 2) FractionalBits
  ASIMDShiftByImm 0 (InvertedFractionalBits >>> 3) (InvertedFractionalBits &&& 0b111)
    0b11111 q rn rd

def ushr (size : SubRegSize) (q : Bool) (rd rn : VReg) (Shift : Nat) :
    Option Nat :=
  if q = false ∧ size = .i64Bit then none else
  let SubregSizeInBits := SubRegSizeInBits size
  let InvertedShift := u32sub (SubregSizeInBits * 2) Shift
  ASIMDShiftByImm 1 (InvertedShift >>> 3) (InvertedShift &&& 0b111) 0b00000 q rn rd

def usra (size : SubRegSize) (q : Bool) (rd rn : VReg) (Shift : Nat) :
    Option Nat :=
  if q = false ∧ size = .i64Bit then none else
  let SubregSizeInBits := SubRegSizeInBits size
  let InvertedShift := u32sub (SubregSizeInBits * 2) Shift
  ASIMDShiftByImm 1 (InvertedShift >>> 3) (InvertedShift &&& 0b111) 0b00010 q rn rd

def urshr (size : SubRegSize) (q : Bool) (rd rn : VReg) (Shift : Nat) :
    Option Nat :=
  if q = false ∧ size = .i64Bit then none else
  let SubregSizeInBits := SubRegSizeInBits size
  let InvertedShift := u32sub (SubregSizeInBits * 2) Shift
  ASIMDShiftByImm 1 (InvertedShift >>> 3) (InvertedShift &&& 0b111) 0b00100 q rn rd

def ursra (size : SubRegSize) (q : Bool) (rd rn : VReg) (Shift : Nat) :
    Option Nat :=
  if q = false ∧ size = .i64Bit then none else
  let SubregSizeInBits := SubRegSizeInBits size
  let InvertedShift := u32sub (SubregSizeInBits * 2) Shift
  ASIMDShiftByImm 1 (InvertedShift >>> 3) (InvertedShift &&& 0b111) 0b00110 q rn rd

def sri (size : SubRegSize) (q : Bool) (rd rn : VReg) (Shift : Nat) :
    Option Nat :=
  if q = false ∧ size = .i64Bit then none else
  let SubregSizeInBits := SubRegSizeInBits size
  let InvertedShift := u32sub (SubregSizeInBits * 2) Shift
  ASIMDShiftByImm 1 (InvertedShift >>> 3) (InvertedShift &&& 0b111) 0b01000 q rn rd

def sli (size : SubRegSize) (q : Bool) (rd rn : VReg) (Shift : Nat) :
    Option Nat :=
  if q = false ∧ size = .i64Bit then none else
  let SubregSizeInBits := SubRegSizeInBits size
  let InvertedShift := u32 (SubregSizeInBits + Shift)
  ASIMDShiftByImm 1 (InvertedShift >>> 3) (InvertedShift &&& 0b111) 0b01010 q rn rd

def sqshlu (size : SubRegSize) (q : Bool) (rd rn : VReg) (Shift : Nat) :
    Option Nat :=
  if q = false ∧ size = .i64Bit then none else
  let SubregSizeInBits := SubRegSizeInBits size
  let InvertedShift := u32 (SubregSizeInBits + Shift)
  ASIMDShiftByImm 1 (InvertedShift >>> 3) (InvertedShift &&& 0b111) 0b01100 q rn rd

def uqshl (size : SubRegSize) (q : Bool) (rd rn : VReg) (Shift : Nat) :
    Option Nat :=
  if q = false ∧ size = .i64Bit then none else
  let SubregSizeInBits := SubRegSizeInBits size
  let InvertedShift := u32 (SubregSizeInBits + Shift)
  ASIMDShiftByImm 1 (InvertedShift >>> 3) (InvertedShift &&& 0b111) 0b01110 q rn rd

def sqshrun (size : SubRegSize) (rd rn : VReg) (Shift : Nat) : Option Nat :=
  if size = .i64Bit then none else
  let SubregSizeInBits := SubRegSizeInBits size
  let InvertedShift := u32sub (SubregSizeInBits * 2) Shift
  ASIMDShiftByImm 1 (InvertedShift >>> 3) (InvertedShift &&& 0b111) 0b10000 false rn rd

def sqshrun2 (size : SubRegSize) (rd rn : VReg) (Shift : Nat) : Option Nat :=
  if size = .i64Bit then none else
  let SubregSizeInBits := SubRegSizeInBits size
  let InvertedShift := u32sub (SubregSizeInBits * 2) Shift
  ASIMDShiftByImm 1 (InvertedShift >>> 3) (InvertedShift &&& 0b111) 0b10000 true rn rd

def sqrshrun (size : SubRegSize) (rd rn : VReg) (Shift : Nat) : Option Nat :=
  if size = .i64Bit then none else
  let SubregSizeInBits := SubRegSizeInBits size
  let InvertedShift := u32sub (SubregSizeInBits * 2) Shift
  ASIMDShiftByImm 1 (InvertedShift >>> 3) (InvertedShift &&& 0b111) 0b10001 false rn rd

def sqrshrun2 (size : SubRegSize) (rd rn : VReg) (Shift : Nat) : Option Nat :=
  if size = .i64Bit then none else
  let SubregSizeInBits := SubRegSizeInBits size
  let InvertedShift := u32sub (SubregSizeInBits * 2) Shift
  ASIMDShiftByImm 1 (InvertedShift >>> 3) (InvertedShift &&& 0b111) 0b10001 true rn rd

def uqshrn (size : SubRegSize) (rd rn : VReg) (Shift : Nat) : Option Nat :=
  let SubregSizeInBits := SubRegSizeInBits size
  let InvertedShift := u32sub (SubregSizeInBits * 2) Shift
  ASIMDShiftByImm 1 (InvertedShift >>> 3) (InvertedShift &&& 0b111) 0b10010 false rn rd

def uqshrn2 (size : SubRegSize) (rd rn : VReg) (Shift : Nat) : Option Nat :=
  let SubregSizeInBits := SubRegSizeInBits size
  let InvertedShift := u32sub (SubregSizeInBits * 2) Shift
  ASIMDShiftByImm 1 (InvertedShift >>> 3) (InvertedShift &&& 0b111) 0b10010 true rn rd

def uqrshrn (size : SubRegSize) (rd rn : VReg) (Shift : Nat) : Option Nat :=
  let SubregSizeInBits := SubRegSizeInBits size
  let InvertedShift := u32sub (SubregSizeInBits * 2) Shift
  ASIMDShiftByImm 1 (InvertedShift >>> 3) (InvertedShift &&& 0b111) 0b10011 false rn rd

def uqrshrn2 (size : SubRegSize) (rd rn : VReg) (Shift : Nat) : Option Nat :=
  let SubregSizeInBits := SubRegSizeInBits size
  let InvertedShift := u32sub (SubregSizeInBits * 2) Shift
  ASIMDShiftByImm 1 (InvertedShift >>> 3) (InvertedShift &&& 0b111) 0b10011 true rn rd

def ushll (size : SubRegSize) (rd rn : VReg) (Shift : Nat) : Option Nat :=
  (SubRegSize.ofUnderlying (u32sub size.toUnderlying 1)).bind fun size1 =>
  let SubregSizeInBits := SubRegSizeInBits size1
  let InvertedShift := u32 (SubregSizeInBits + Shift)
  ASIMDShiftByImm 1 (InvertedShift >>> 3) (InvertedShift &&& 0b111) 0b10100 false rn rd

def ushll2 (size : SubRegSize) (rd rn : VReg) (Shift : Nat) : Option Nat :=
  (SubRegSize.ofUnderlying (u32sub size.toUnderlying 1)).bind fun size1 =>
  let SubregSizeInBits := SubRegSizeInBits size1
  let InvertedShift := u32 (SubregSizeInBits + Shift)
  ASIMDShiftByImm 1 (InvertedShift >>> 3) (InvertedShift &&& 0b111) 0b10100 true rn rd

def uxtl (size : SubRegSize) (rd rn : VReg) : Option Nat :=
  ushll size rd rn 0

def uxtl2 (size : SubRegSize) (rd rn : VReg) : Option Nat :=
  ushll2 size rd rn 0

def ucvtf (size : SubRegSize) (q : Bool) (rd rn : VReg) (FractionalBits : Nat) :
    Option Nat :=
  if size = .i8Bit then none else
  if q = false ∧ size = .i64Bit then none else
  let SubregSizeInBits := SubRegSizeInBits size
  if ¬ (FractionalBits < SubregSizeInBits) then none else
  let InvertedFractionalBits := u32sub (SubregSizeInBits * 2) FractionalBits
  ASIMDShiftByImm 1 (InvertedFractionalBits >>> 3) (InvertedFractionalBits &&& 0b111)
    0b11100 q rn rd

def fcvtzu (size : SubRegSize) (q : Bool) (rd rn : VReg) (FractionalBits : Nat) :
    Option Nat :=
  if size = .i8Bit then none else
  if q = false ∧ size = .i64Bit then none else
  let SubregSizeInBits := SubRegSizeInBits size
  if ¬ (FractionalBits < SubregSizeInBits) then none else
  let InvertedFractionalBits := u32sub (SubregSizeInBits * 2) FractionalBits
  ASIMDShiftByImm 1 (InvertedFractionalBits >>> 3) (InvertedFractionalBits &&& 0b111)
    0b11111 q rn rd

/-! ## Mnemonic layer: Advanced SIMD copy, three-same, indexed element -/

/-- Lane-duplicate (vector form, with lane index). -/
def dup (size : SubRegSize) (q : Bool) (rd rn : VReg) (Index : Nat) :
    Option Nat :=
  if q = false ∧ size = .i64Bit then none else
  let SizeImm := size.toUnderlying
  let IndexShift := SizeImm + 1
  let ElementSize := 1 <<< SizeImm
  let MaxIndex := 128 / (ElementSize * 8)
  if ¬ (Index < MaxIndex) then none else
  let imm5 := (Index <<< IndexShift) ||| ElementSize
  some (ASIMDScalarCopy (if q then 1 else 0) 0 imm5 0b0000 rd rn)

/-- Bitwise OR of two vector registers (three-same class). -/
def orr (q : Bool) (rd rn rm : VReg) : Nat :=
  ASIMD3Same 0 .i32Bit 0b00011 q rd rn rm

/-- Vector register move: an alias for `orr` with the source duplicated. -/
def mov (q : Bool) (rd rn : VReg) : Nat :=
  orr q rd rn rn

/-- Floating-point multiply (vector, three-same class). -/
def fmul (size : SubRegSize) (q : Bool) (rd rn rm : VReg) : Option Nat :=
  if q = false ∧ size = .i64Bit then none else
  if ¬ IsStandardFloatSize size then none else
  if size = .i16Bit then
    some (ASIMDThreeSameFP16 1 0 0b011 q rm rn rd)
  else
    let ConvertedSize : SubRegSize :=
      if size = .i64Bit then .i16Bit else .i8Bit
    some (ASIMD3Same 1 ConvertedSize 0b11011 q rd rn rm)

/-- Floating-point pairwise min-number (vector, three-same class); note that
the element size enumerant is passed through unchanged to `ASIMD3Same`. -/
def fminnmp (size : SubRegSize) (q : Bool) (rd rn rm : VReg) : Option Nat :=
  if q = false ∧ size = .i64Bit then none else
  if ¬ IsStandardFloatSize size then none else
  if size = .i16Bit then
    some (ASIMDThreeSameFP16 1 1 0b000 q rm rn rd)
  else
    some (ASIMD3Same 1 size 0b11000 q rd rn rm)

/-- Floating-point max-number (vector, three-same class); the size field is remapped before reaching the integer three-same template. -/
def fmaxnm (size : SubRegSize) (q : Bool) (rd rn rm : VReg) : Option Nat :=
  if q = false ∧ size = .i64Bit then none else
  if ¬ IsStandardFloatSize size then none else
  if size = .i16Bit then
    some (ASIMDThreeSameFP16 0 0 0b000 q rm rn rd)
  else
    let ConvertedSize : SubRegSize :=
      if size = .i64Bit then .i16Bit else .i8Bit
    some (ASIMD3Same 0 ConvertedSize 0b11000 q rd rn rm)

/-- Floating-point fused multiply-add (vector, three-same class); the size field is remapped before reaching the integer three-same template. -/
def fmla (size : SubRegSize) (q : Bool) (rd rn rm : VReg) : Option Nat :=
  if q = false ∧ size = .i64Bit then none else
  if ¬ IsStandardFloatSize size then none else
  if size = .i16Bit then
    some (ASIMDThreeSameFP16 0 0 0b001 q rm rn rd)
  else
    let ConvertedSize : SubRegSize :=
      if size = .i64Bit then .i16Bit else .i8Bit
    some (ASIMD3Same 0 ConvertedSize 0b11001 q rd rn rm)

/-- Floating-point add (vector, three-same class); the size field is remapped before reaching the integer three-same template. -/
def fadd (size : SubRegSize) (q : Bool) (rd rn rm : VReg) : Option Nat :=
  if q = false ∧ size = .i64Bit then none else
  if ¬ IsStandardFloatSize size then none else
  if size = .i16Bit then
    some (ASIMDThreeSameFP16 0 0 0b010 q rm rn rd)
  else
    let ConvertedSize : SubRegSize :=
      if size = .i64Bit then .i16Bit else .i8Bit
    some (ASIMD3Same 0 ConvertedSize 0b11010 q rd rn rm)

/-- Floating-point multiply-extended (vector, three-same class); the size field is remapped before reaching the integer three-same template. -/
def fmulx (size : SubRegSize) (q : Bool) (rd rn rm : VReg) : Option Nat :=
  if q = false ∧ size = .i64Bit then none else
  if ¬ IsStandardFloatSize size then none else
  if size = .i16Bit then
    some (ASIMDThreeSameFP16 0 0 0b011 q rm rn rd)
  else
    let ConvertedSize : SubRegSize :=
      if size = .i64Bit then .i16Bit else .i8Bit
    some (ASIMD3Same 0 ConvertedSize 0b11011 q rd rn rm)

/-- Floating-point compare equal (vector, three-same class); the size field is remapped before reaching the integer three-same template. -/
def fcmeq (size : SubRegSize) (q : Bool) (rd rn rm : VReg) : Option Nat :=
  if q = false ∧ size = .i64Bit then none else
  if ¬ IsStandardFloatSize size then none else
  if size = .i16Bit then
    some (ASIMDThreeSameFP16 0 0 0b100 q rm rn rd)
  else
    let ConvertedSize : SubRegSize :=
      if size = .i64Bit then .i16Bit else .i8Bit
    some (ASIMD3Same 0 ConvertedSize 0b11100 q rd rn rm)

/-- Floating-point max (vector, three-same class); the size field is remapped before reaching the integer three-same template. -/
def fmax (size : SubRegSize) (q : Bool) (rd rn rm : VReg) : Option Nat :=
  if q = false ∧ size = .i64Bit then none else
  if ¬ IsStandardFloatSize size then none else
  if size = .i16Bit then
    some (ASIMDThreeSameFP16 0 0 0b110 q rm rn rd)
  else
    let ConvertedSize : SubRegSize :=
      if size = .i64Bit then .i16Bit else .i8Bit
    some (ASIMD3Same 0 ConvertedSize 0b11110 q rd rn rm)

/-- Floating-point reciprocal step (vector, three-same class); the size field is remapped before reaching the integer three-same template. -/
def frecps (size : SubRegSize) (q : Bool) (rd rn rm : VReg) : Option Nat :=
  if q = false ∧ size = .i64Bit then none else
  if ¬ IsStandardFloatSize size then none else
  if size = .i16Bit then
    some (ASIMDThreeSameFP16 0 0 0b111 q rm rn rd)
  else
    let ConvertedSize : SubRegSize :=
      if size = .i64Bit then .i16Bit else .i8Bit
    some (ASIMD3Same 0 ConvertedSize 0b11111 q rd rn rm)

/-- Floating-point pairwise max-number (vector, three-same class); the size field is remapped before reaching the integer three-same template. -/
def fmaxnmp (size : SubRegSize) (q : Bool) (rd rn rm : VReg) : Option Nat :=
  if q = false ∧ size = .i64Bit then none else
  if ¬ IsStandardFloatSize size then none else
  if size = .i16Bit then
    some (ASIMDThreeSameFP16 1 0 0b000 q rm rn rd)
  else
    let ConvertedSize : SubRegSize :=
      if size = .i64Bit then .i16Bit else .i8Bit
    some (ASIMD3Same 1 ConvertedSize 0b11000 q rd rn rm)

/-- Floating-point pairwise add (vector, three-same class); the size field is remapped before reaching the integer three-same template. -/
def faddp (size : SubRegSize) (q : Bool) (rd rn rm : VReg) : Option Nat :=
  if q = false ∧ size = .i64Bit then none else
  if ¬ IsStandardFloatSize size then none else
  if size = .i16Bit then
    some (ASIMDThreeSameFP16 1 0 0b010 q rm rn rd)
  else
    let ConvertedSize : SubRegSize :=
      if size = .i64Bit then .i16Bit else .i8Bit
    some (ASIMD3Same 1 ConvertedSize 0b11010 q rd rn rm)

/-- Floating-point compare greater-or-equal (vector, three-same class); the size field is remapped before reaching the integer three-same template. -/
def fcmge (size : SubRegSize) (q : Bool) (rd rn rm : VReg) : Option Nat :=
  if q = false ∧ size = .i64Bit then none else
  if ¬ IsStandardFloatSize size then none else
  if size = .i16Bit then
    some (ASIMDThreeSameFP16 1 0 0b100 q rm rn rd)
  else
    let ConvertedSize : SubRegSize :=
      if size = .i64Bit then .i16Bit else .i8Bit
    some (ASIMD3Same 1 ConvertedSize 0b11100 q rd rn rm)

/-- Floating-point absolute compare greater-or-equal (vector, three-same class); the size field is remapped before reaching the integer three-same template. -/
def facge (size : SubRegSize) (q : Bool) (rd rn rm : VReg) : Option Nat :=
  if q = false ∧ size = .i64Bit then none else
  if ¬ IsStandardFloatSize size then none else
  if size = .i16Bit then
    some (ASIMDThreeSameFP16 1 0 0b101 q rm rn rd)
  else
    let ConvertedSize : SubRegSize :=
      if size = .i64Bit then .i16Bit else .i8Bit
    some (ASIMD3Same 1 ConvertedSize 0b11101 q rd rn rm)

/-- Floating-point pairwise max (vector, three-same class); the size field is remapped before reaching the integer three-same template. -/
def fmaxp (size : SubRegSize) (q : Bool) (rd rn rm : VReg) : Option Nat :=
  if q = false ∧ size = .i64Bit then none else
  if ¬ IsStandardFloatSize size then none else
  if size = .i16Bit then
    some (ASIMDThreeSameFP16 1 0 0b110 q rm rn rd)
  else
    let ConvertedSize : SubRegSize :=
      if size = .i64Bit then .i16Bit else .i8Bit
    some (ASIMD3Same 1 ConvertedSize 0b11110 q rd rn rm)

/-- Floating-point divide (vector, three-same class); the size field is remapped before reaching the integer three-same template. -/
def fdiv (size : SubRegSize) (q : Bool) (rd rn rm : VReg) : Option Nat :=
  if q = false ∧ size = .i64Bit then none else
  if ¬ IsStandardFloatSize size then none else
  if size = .i16Bit then
    some (ASIMDThreeSameFP16 1 0 0b111 q rm rn rd)
  else
    let ConvertedSize : SubRegSize :=
      if size = .i64Bit then .i16Bit else .i8Bit
    some (ASIMD3Same 1 ConvertedSize 0b11111 q rd rn rm)

/-- Floating-point min-number (vector, three-same class); the element size enumerant is passed through unchanged to `ASIMD3Same`. -/
def fminnm (size : SubRegSize) (q : Bool) (rd rn rm : VReg) : Option Nat :=
  if q = false ∧ size = .i64Bit then none else
  if ¬ IsStandardFloatSize size then none else
  if size = .i16Bit then
    some (ASIMDThreeSameFP16 0 1 0b000 q rm rn rd)
  else
    some (ASIMD3Same 0 size 0b11000 q rd rn rm)

/-- Floating-point fused multiply-subtract (vector, three-same class); the element size enumerant is passed through unchanged to `ASIMD3Same`. -/
def fmls (size : SubRegSize) (q : Bool) (rd rn rm : VReg) : Option Nat :=
  if q = false ∧ size = .i64Bit then none else
  if ¬ IsStandardFloatSize size then none else
  if size = .i16Bit then
    some (ASIMDThreeSameFP16 0 1 0b001 q rm rn rd)
  else
    some (ASIMD3Same 0 size 0b11001 q rd rn rm)

/-- Floating-point subtract (vector, three-same class); the element size enumerant is passed through unchanged to `ASIMD3Same`. -/
def fsub (size : SubRegSize) (q : Bool) (rd rn rm : VReg) : Option Nat :=
  if q = false ∧ size = .i64Bit then none else
  if ¬ IsStandardFloatSize size then none else
  if size = .i16Bit then
    some (ASIMDThreeSameFP16 0 1 0b010 q rm rn rd)
  else
    some (ASIMD3Same 0 size 0b11010 q rd rn rm)

/-- Floating-point min (vector, three-same class); the element size enumerant is passed through unchanged to `ASIMD3Same`. -/
def fmin (size : SubRegSize) (q : Bool) (rd rn rm : VReg) : Option Nat :=
  if q = false ∧ size = .i64Bit then none else
  if ¬ IsStandardFloatSize size then none else
  if size = .i16Bit then
    some (ASIMDThreeSameFP16 0 1 0b110 q rm rn rd)
  else
    some (ASIMD3Same 0 size 0b11110 q rd rn rm)

/-- Floating-point reciprocal square-root step (vector, three-same class); the element size enumerant is passed through unchanged to `ASIMD3Same`. -/
def frsqrts (size : SubRegSize) (q : Bool) (rd rn rm : VReg) : Option Nat :=
  if q = false ∧ size = .i64Bit then none else
  if ¬ IsStandardFloatSize size then none else
  if size = .i16Bit then
    some (ASIMDThreeSameFP16 0 1 0b111 q rm rn rd)
  else
    some (ASIMD3Same 0 size 0b11111 q rd rn rm)

/-- Floating-point absolute difference (vector, three-same class); the element size enumerant is passed through unchanged to `ASIMD3Same`. -/
def fabd (size : SubRegSize) (q : Bool) (rd rn rm : VReg) : Option Nat :=
  if q = false ∧ size = .i64Bit then none else
  if ¬ IsStandardFloatSize size then none else
  if size = .i16Bit then
    some (ASIMDThreeSameFP16 1 1 0b010 q rm rn rd)
  else
    some (ASIMD3Same 1 size 0b11010 q rd rn rm)

/-- Floating-point compare greater-than (vector, three-same class); the element size enumerant is passed through unchanged to `ASIMD3Same`. -/
def fcmgt (size : SubRegSize) (q : Bool) (rd rn rm : VReg) : Option Nat :=
  if q = false ∧ size = .i64Bit then none else
  if ¬ IsStandardFloatSize size then none else
  if size = .i16Bit then
    some (ASIMDThreeSameFP16 1 1 0b100 q rm rn rd)
  else
    some (ASIMD3Same 1 size 0b11100 q rd rn rm)

/-- Floating-point absolute compare greater-than (vector, three-same class); the element size enumerant is passed through unchanged to `ASIMD3Same`. -/
def facgt (size : SubRegSize) (q : Bool) (rd rn rm : VReg) : Option Nat :=
  if q = false ∧ size = .i64Bit then none else
  if ¬ IsStandardFloatSize size then none else
  if size = .i16Bit then
    some (ASIMDThreeSameFP16 1 1 0b101 q rm rn rd)
  else
    some (ASIMD3Same 1 size 0b11101 q rd rn rm)

/-- Floating-point pairwise min (vector, three-same class); the element size enumerant is passed through unchanged to `ASIMD3Same`. -/
def fminp (size : SubRegSize) (q : Bool) (rd rn rm : VReg) : Option Nat :=
  if q = false ∧ size = .i64Bit then none else
  if ¬ IsStandardFloatSize size then none else
  if size = .i16Bit then
    some (ASIMDThreeSameFP16 1 1 0b110 q rm rn rd)
  else
    some (ASIMD3Same 1 size 0b11110 q rd rn rm)

/-- Unsigned multiply-long by indexed element (`size` is the destination
element size; the source element size is one enumeration step below it). -/
def umull (size : SubRegSize) (rd rn rm : VReg) (Index : Nat) : Option Nat :=
  if ¬ (size = .i32Bit ∨ size = .i64Bit) then none else
  if size = .i32Bit ∧ ¬ (rm.val < 16) then none else
  (SubRegSize.ofUnderlying (u32sub size.toUnderlying 1)).bind
    fun EncodedSubRegSize =>
  if ¬ (Index < SubRegSizeInBits EncodedSubRegSize) then none else
  let HLM : Nat × Nat × Nat :=
    if size = .i32Bit then
      ((Index >>> 2) &&& 1, (Index >>> 1) &&& 1, (Index >>> 0) &&& 1)
    else
      ((Index >>> 1) &&& 1, (Index >>> 0) &&& 1, 0)
  some (ASIMDVectorXIndexedElement 0b1 HLM.2.1 HLM.2.2 0b1010 HLM.1
    EncodedSubRegSize false rm rn rd)

/-! ## Mnemonic layer: Advanced SIMD modified immediate -/

/-- Vector floating-point move-immediate. The IEEE754-to-8-bit modified
immediate conversions (`FP32ToImm8` / `FP64ToImm8`) are external numeric
collaborators, passed in as function parameters over the raw value. -/
def fmov (fp32 fp64 : Nat → Nat) (size : SubRegSize) (q : Bool) (rd : VReg)
    (Value : Nat) : Option Nat :=
  if q = false ∧ size = .i64Bit then none else
  if ¬ IsStandardFloatSize size then none else
  let cmode := 0b1111
  if size = .i16Bit then none
  else if size = .i32Bit then
    some (ASIMDModifiedImm 0 cmode 0 (fp32 Value) q rd)
  else if size = .i64Bit then
    some (ASIMDModifiedImm 1 cmode 0 (fp64 Value) q rd)
  else none

/-- One step of the 64-bit `movi` byte-compression loop: checks that byte
`i` of `Imm` is `0x00` or `0xFF` and sets bit `i` of the accumulator for a
`0xFF` byte. -/
def moviByteStep (Imm i : Nat) (acc : Option Nat) : Option Nat :=
  acc.bind fun NewImm =>
    let Section := (Imm >>> (i * 8)) &&& 0xFF
    if Section = 0 then some NewImm
    else if Section = 0xFF then some (NewImm ||| (1 <<< i))
    else none

/-- The 64-bit `movi` immediate compression: each of the eight bytes of
`Imm` must be `0x00` or `0xFF` and is compressed to one bit. -/
def movi64Compress (Imm : Nat) : Option Nat :=
  (List.range 8).foldl (fun acc i => moviByteStep Imm i acc) (some 0)

/-- Vector move-immediate. -/
def movi (size : SubRegSize) (q : Bool) (rd : VReg) (Imm : Nat)
    (Shift : Nat := 0) : Option Nat :=
  if ¬ (size = .i8Bit ∨ size = .i16Bit ∨ size = .i32Bit ∨ size = .i64Bit) then
    none
  else if size = .i8Bit then
    if ¬ (Shift = 0) then none else
    if ¬ (Imm &&& 0xFF = Imm) then none else
    some (ASIMDModifiedImm 0 0b1110 0 Imm q rd)
  else if size = .i16Bit then
    if ¬ (Shift = 0 ∨ Shift = 8) then none else
    if ¬ (Imm &&& 0xFF = Imm) then none else
    some (ASIMDModifiedImm 0 (0b1000 ||| (if Shift ≠ 0 then 0b10 else 0b00)) 0
      Imm q rd)
  else if size = .i32Bit then
    if ¬ (Shift = 0 ∨ Shift = 8 ∨ Shift = 16 ∨ Shift = 24) then none else
    if ¬ (Imm &&& 0xFF = Imm) then none else
    some (ASIMDModifiedImm 0 (0b0000 ||| ((Shift >>> 3) <<< 1)) 0 Imm q rd)
  else
    if ¬ (Shift = 0) then none else
    (movi64Compress Imm).map fun NewImm =>
      ASIMDModifiedImm 1 0b1110 0 NewImm q rd

/-! ## Decoding helpers

Spec-side inverse functions, used to state the round-trip properties: they
read fields back out of an emitted word by the inverse of the documented
encoding formulas. -/

/-- The `immh` field of a shift-by-immediate word (bits 19-22). -/
def wordImmh (w : Nat) : Nat := (w >>> 19) &&& 15

/-- The `immb` field of a shift-by-immediate word (bits 16-18). -/
def wordImmb (w : Nat) : Nat := (w >>> 16) &&& 7

/-- The concatenated `immh:immb` field of a shift-by-immediate word. -/
def wordImmhImmb (w : Nat) : Nat := (wordImmh w <<< 3) ||| wordImmb w

/-- Decode the shift of a right-shift-like word: `shift = esize*2 - immh:immb`. -/
def decodeRightShift (esize w : Nat) : Nat := esize * 2 - wordImmhImmb w

/-- Decode the shift of a left-shift-like word: `shift = immh:immb - esize`. -/
def decodeLeftShift (esize w : Nat) : Nat := wordImmhImmb w - esize

/-- The `H` bit of a vector-by-indexed-element word (bit 11). -/
def wordH (w : Nat) : Nat := (w >>> 11) &&& 1

/-- The `L` bit of a vector-by-indexed-element word (bit 21). -/
def wordL (w : Nat) : Nat := (w >>> 21) &&& 1

/-- The `M` bit of a vector-by-indexed-element word (bit 20). -/
def wordM (w : Nat) : Nat := (w >>> 20) &&& 1

/-- Decode a three-bit `H:L:M` lane index. -/
def decodeHLM (w : Nat) : Nat := (wordH w <<< 2) ||| (wordL w <<< 1) ||| wordM w

/-- Decode a two-bit `H:L` lane index. -/
def decodeHL (w : Nat) : Nat := (wordH w <<< 1) ||| wordL w

/-- Byte `i` of a 64-bit immediate. -/
def byteAt (Imm i : Nat) : Nat := (Imm >>> (i * 8)) &&& 0xFF

/-- Expansion of the `n` low bits of a compressed immediate: bit `i`
expands back to a full `0x00`/`0xFF` byte at byte position `i`. -/
def expandN : Nat → Nat → Nat
  | 0, _ => 0
  | n + 1, c => expandN n c + (if c.testBit n then 255 * 256 ^ n else 0)

/-- Expansion of the compressed 64-bit `movi` immediate: each of the eight
bits of `c` expands back to a full `0x00`/`0xFF` byte. -/
def expand64 (c : Nat) : Nat := expandN 8 c

/-- The element size one enumeration step below the given one (identity on
the 8-bit boundary, where no smaller size exists). Used to state properties
of the widening mnemonics, whose source size is the destination size
decremented by one step. -/
def sizeStepDown : SubRegSize → SubRegSize
  | .i8Bit => .i8Bit
  | .i16Bit => .i8Bit
  | .i32Bit => .i16Bit
  | .i64Bit => .i32Bit
  | .i128Bit => .i64Bit

/-! ## Bit-level toolkit -/

theorem u32sub_eq_sub {a b : Nat} (hb : b ≤ a) (ha : a < 4294967296) :
    u32sub a b = a - b := by
  unfold u32sub
  have hb32 : b < 4294967296 := lt_of_le_of_lt hb ha
  rw [Nat.mod_eq_of_lt hb32]
  omega

theorem u32_eq_self {a : Nat} (ha : a < 4294967296) : u32 a = a :=
  Nat.mod_eq_of_lt ha

theorem testBit_high_false {v n i : Nat} (hv : v < 2 ^ n) (hi : n ≤ i) :
    v.testBit i = false :=
  Nat.testBit_lt_two_pow (lt_of_lt_of_le hv (Nat.pow_le_pow_right (by norm_num) hi))

theorem shiftLeft_and_eq_zero {b m : Nat} (a : Nat) (hb : b < 2 ^ m) :
    (a <<< m) &&& b = 0 := by
  apply Nat.eq_of_testBit_eq
  intro i
  simp only [Nat.testBit_and, Nat.testBit_shiftLeft, Nat.zero_testBit]
  by_cases h : m ≤ i
  · have hf : b.testBit i = false := testBit_high_false hb h
    simp [hf]
  · simp [h]

theorem or_eq_add {a b : Nat} (h : a &&& b = 0) : a ||| b = a + b := by
  induction a using Nat.strong_induction_on generalizing b with
  | _ a ih =>
    rcases Nat.eq_zero_or_pos a with ha | ha
    · subst ha; simp
    · have h2 : (a / 2) &&& (b / 2) = 0 := by
        rw [← Nat.and_div_two, h]
      have ihd := ih (a / 2) (Nat.div_lt_self ha (by norm_num)) h2
      have hor : (a ||| b) / 2 = (a / 2) ||| (b / 2) := Nat.or_div_two
      have hmods : ¬ (a % 2 = 1 ∧ b % 2 = 1) := by
        intro hc
        have := Nat.and_mod_two_eq_one.mpr hc
        rw [h] at this
        simp at this
      have hmor : (a ||| b) % 2 = 1 ↔ (a % 2 = 1 ∨ b % 2 = 1) :=
        Nat.or_mod_two_eq_one
      have e1 : a ||| b = 2 * ((a ||| b) / 2) + (a ||| b) % 2 := by omega
      have e2 : a = 2 * (a / 2) + a % 2 := by omega
      have e3 : b = 2 * (b / 2) + b % 2 := by omega
      have hma : a % 2 = 0 ∨ a % 2 = 1 := Nat.mod_two_eq_zero_or_one a
      have hmb : b % 2 = 0 ∨ b % 2 = 1 := Nat.mod_two_eq_zero_or_one b
      have hmab : (a ||| b) % 2 = 0 ∨ (a ||| b) % 2 = 1 :=
        Nat.mod_two_eq_zero_or_one _
      rw [hor, ihd] at e1
      omega

theorem and_fifteen (x : Nat) : x &&& 15 = x % 16 := by
  have h := Nat.and_pow_two_sub_one_eq_mod x 4
  norm_num at h
  exact h

theorem and_seven (x : Nat) : x &&& 7 = x % 8 := by
  have h := Nat.and_pow_two_sub_one_eq_mod x 3
  norm_num at h
  exact h

theorem and_three (x : Nat) : x &&& 3 = x % 4 := by
  have h := Nat.and_pow_two_sub_one_eq_mod x 2
  norm_num at h
  exact h

theorem and_twofivefive (x : Nat) : x &&& 255 = x % 256 := by
  have h := Nat.and_pow_two_sub_one_eq_mod x 8
  norm_num at h
  exact h

theorem sr_div (x n : Nat) : x >>> n = x / 2 ^ n := Nat.shiftRight_eq_div_pow x n

theorem orChain9 (t24 t10 a30 a29 a19 a16 a11 a5 a0 : Nat) :
    t24 ||| t10 ||| a30 ||| a29 ||| a19 ||| a16 ||| a11 ||| a5 ||| a0
    = a30 ||| (a29 ||| (t24 ||| (a19 ||| (a16 ||| (a11 ||| (t10 |||
      (a5 ||| a0))))))) := by
  ac_rfl

theorem orChain10 (a30 a29 a24 a22 a21 a20 a16 a12 a11 a5 a0 : Nat) :
    a24 ||| a30 ||| a29 ||| a22 ||| a21 ||| a20 ||| a16 ||| a12 ||| a11 |||
      a5 ||| a0
    = a30 ||| (a29 ||| (a24 ||| (a22 ||| (a21 ||| (a20 ||| (a16 ||| (a12 |||
      (a11 ||| (a5 ||| a0))))))))) := by
  ac_rfl

theorem Qbit_eq (q : Bool) : Qbit q = (if q then 1 else 0) <<< 30 := by
  cases q <;> rfl

/-- The shift-by-immediate word as an arithmetic sum of its fields. -/
theorem shiftByImmWordVal (Qv U immh immb op rn rd : Nat)
    (hU : U < 2) (hh : immh < 16) (hb : immb < 8)
    (hop : op < 32) (hrn : rn < 32) (hrd : rd < 32) :
    (0b0000111100000000000001 <<< 10) ||| (Qv <<< 30) ||| (U <<< 29) |||
      (immh <<< 19) ||| (immb <<< 16) ||| (op <<< 11) ||| (rn <<< 5) ||| rd
    = Qv * 1073741824 + U * 536870912 + immh * 524288 + immb * 65536 +
      op * 2048 + rn * 32 + rd + 251659264 := by
  have hT : (245761 : Nat) <<< 10 = (15 <<< 24) ||| (1 <<< 10) := by decide
  rw [show (0b0000111100000000000001 : Nat) = 245761 from rfl, hT]
  rw [orChain9]
  have z1 : (rn <<< 5) ||| rd = rn <<< 5 + rd :=
    or_eq_add (shiftLeft_and_eq_zero rn (by omega))
  rw [z1]
  have z2 : (1 <<< 10) ||| (rn <<< 5 + rd) = 1 <<< 10 + (rn <<< 5 + rd) :=
    or_eq_add (shiftLeft_and_eq_zero 1 (by simp only [Nat.shiftLeft_eq]; omega))
  rw [z2]
  have z3 : (op <<< 11) ||| (1 <<< 10 + (rn <<< 5 + rd))
      = op <<< 11 + (1 <<< 10 + (rn <<< 5 + rd)) :=
    or_eq_add (shiftLeft_and_eq_zero op (by simp only [Nat.shiftLeft_eq]; omega))
  rw [z3]
  have z4 : (immb <<< 16) ||| (op <<< 11 + (1 <<< 10 + (rn <<< 5 + rd)))
      = immb <<< 16 + (op <<< 11 + (1 <<< 10 + (rn <<< 5 + rd))) :=
    or_eq_add (shiftLeft_and_eq_zero immb (by simp only [Nat.shiftLeft_eq]; omega))
  rw [z4]
  have z5 : (immh <<< 19) ||| (immb <<< 16 + (op <<< 11 + (1 <<< 10 + (rn <<< 5 + rd))))
      = immh <<< 19 + (immb <<< 16 + (op <<< 11 + (1 <<< 10 + (rn <<< 5 + rd)))) :=
    or_eq_add (shiftLeft_and_eq_zero immh (by simp only [Nat.shiftLeft_eq]; omega))
  rw [z5]
  have z6 : (15 <<< 24) ||| (immh <<< 19 + (immb <<< 16 + (op <<< 11 + (1 <<< 10 + (rn <<< 5 + rd)))))
      = 15 <<< 24 + (immh <<< 19 + (immb <<< 16 + (op <<< 11 + (1 <<< 10 + (rn <<< 5 + rd))))) :=
    or_eq_add (shiftLeft_and_eq_zero 15 (by simp only [Nat.shiftLeft_eq]; omega))
  rw [z6]
  have z7 : (U <<< 29) ||| (15 <<< 24 + (immh <<< 19 + (immb <<< 16 + (op <<< 11 + (1 <<< 10 + (rn <<< 5 + rd))))))
      = U <<< 29 + (15 <<< 24 + (immh <<< 19 + (immb <<< 16 + (op <<< 11 + (1 <<< 10 + (rn <<< 5 + rd)))))) :=
    or_eq_add (shiftLeft_and_eq_zero U (by simp only [Nat.shiftLeft_eq]; omega))
  rw [z7]
  have z8 : (Qv <<< 30) ||| (U <<< 29 + (15 <<< 24 + (immh <<< 19 + (immb <<< 16 + (op <<< 11 + (1 <<< 10 + (rn <<< 5 + rd)))))))
      = Qv <<< 30 + (U <<< 29 + (15 <<< 24 + (immh <<< 19 + (immb <<< 16 + (op <<< 11 + (1 <<< 10 + (rn <<< 5 + rd))))))) :=
    or_eq_add (shiftLeft_and_eq_zero Qv (by simp only [Nat.shiftLeft_eq]; omega))
  rw [z8]
  simp only [Nat.shiftLeft_eq]
  omega

/-- The shift-by-immediate category encoder, evaluated to its sum form. -/
theorem ASIMDShiftByImm_val (U immh immb op : Nat) (q : Bool) (rn rd : VReg)
    (hU : U < 2) (hh : immh < 16) (hb : immb < 8) (hop : op < 32)
    (hnz : immh ≠ 0) :
    ASIMDShiftByImm U immh immb op q rn rd =
      some ((if q then 1073741824 else 0) + U * 536870912 + immh * 524288 +
        immb * 65536 + op * 2048 + rn.val * 32 + rd.val + 251659264) := by
  unfold ASIMDShiftByImm
  rw [if_neg hnz, Qbit_eq]
  have := shiftByImmWordVal (if q then 1 else 0) U immh immb op rn.val rd.val
    hU hh hb hop rn.isLt rd.isLt
  rw [this]
  cases q <;> simp

/-- The vector-by-indexed-element word as an arithmetic sum of its fields,
for the three-bit `H:L:M` index form (`rm` restricted below 16). -/
theorem vxWordValHLM (Qv U sz L M op H rm rn rd : Nat)
    (hU : U < 2) (hsz : sz < 4) (hL : L < 2) (hM : M < 2) (hrm : rm < 16)
    (hop : op < 16) (hH : H < 2) (hrn : rn < 32) (hrd : rd < 32) :
    (0b0000111100000000000000 <<< 10) ||| (Qv <<< 30) ||| (U <<< 29) |||
      (sz <<< 22) ||| (L <<< 21) ||| (M <<< 20) ||| (rm <<< 16) |||
      (op <<< 12) ||| (H <<< 11) ||| (rn <<< 5) ||| rd
    = Qv * 1073741824 + U * 536870912 + sz * 4194304 + L * 2097152 +
      M * 1048576 + rm * 65536 + op * 4096 + H * 2048 + rn * 32 + rd +
      251658240 := by
  rw [show (0b0000111100000000000000 : Nat) <<< 10 = 15 <<< 24 from by decide]
  rw [orChain10]
  have z1 : (rn <<< 5) ||| rd = rn <<< 5 + rd :=
    or_eq_add (shiftLeft_and_eq_zero rn (by omega))
  rw [z1]
  have z2 : (H <<< 11) ||| (rn <<< 5 + rd) = H <<< 11 + (rn <<< 5 + rd) :=
    or_eq_add (shiftLeft_and_eq_zero H (by simp only [Nat.shiftLeft_eq]; omega))
  rw [z2]
  have z3 : (op <<< 12) ||| (H <<< 11 + (rn <<< 5 + rd))
      = op <<< 12 + (H <<< 11 + (rn <<< 5 + rd)) :=
    or_eq_add (shiftLeft_and_eq_zero op (by simp only [Nat.shiftLeft_eq]; omega))
  rw [z3]
  have z4 : (rm <<< 16) ||| (op <<< 12 + (H <<< 11 + (rn <<< 5 + rd)))
      = rm <<< 16 + (op <<< 12 + (H <<< 11 + (rn <<< 5 + rd))) :=
    or_eq_add (shiftLeft_and_eq_zero rm (by simp only [Nat.shiftLeft_eq]; omega))
  rw [z4]
  have z5 : (M <<< 20) ||| (rm <<< 16 + (op <<< 12 + (H <<< 11 + (rn <<< 5 + rd))))
      = M <<< 20 + (rm <<< 16 + (op <<< 12 + (H <<< 11 + (rn <<< 5 + rd)))) :=
    or_eq_add (shiftLeft_and_eq_zero M (by simp only [Nat.shiftLeft_eq]; omega))
  rw [z5]
  have z6 : (L <<< 21) ||| (M <<< 20 + (rm <<< 16 + (op <<< 12 + (H <<< 11 + (rn <<< 5 + rd)))))
      = L <<< 21 + (M <<< 20 + (rm <<< 16 + (op <<< 12 + (H <<< 11 + (rn <<< 5 + rd))))) :=
    or_eq_add (shiftLeft_and_eq_zero L (by simp only [Nat.shiftLeft_eq]; omega))
  rw [z6]
  have z7 : (sz <<< 22) ||| (L <<< 21 + (M <<< 20 + (rm <<< 16 + (op <<< 12 + (H <<< 11 + (rn <<< 5 + rd))))))
      = sz <<< 22 + (L <<< 21 + (M <<< 20 + (rm <<< 16 + (op <<< 12 + (H <<< 11 + (rn <<< 5 + rd)))))) :=
    or_eq_add (shiftLeft_and_eq_zero sz (by simp only [Nat.shiftLeft_eq]; omega))
  rw [z7]
  have z8 : (15 <<< 24) ||| (sz <<< 22 + (L <<< 21 + (M <<< 20 + (rm <<< 16 + (op <<< 12 + (H <<< 11 + (rn <<< 5 + rd)))))))
      = 15 <<< 24 + (sz <<< 22 + (L <<< 21 + (M <<< 20 + (rm <<< 16 + (op <<< 12 + (H <<< 11 + (rn <<< 5 + rd))))))) :=
    or_eq_add (shiftLeft_and_eq_zero 15 (by simp only [Nat.shiftLeft_eq]; omega))
  rw [z8]
  have z9 : (U <<< 29) ||| (15 <<< 24 + (sz <<< 22 + (L <<< 21 + (M <<< 20 + (rm <<< 16 + (op <<< 12 + (H <<< 11 + (rn <<< 5 + rd))))))))
      = U <<< 29 + (15 <<< 24 + (sz <<< 22 + (L <<< 21 + (M <<< 20 + (rm <<< 16 + (op <<< 12 + (H <<< 11 + (rn <<< 5 + rd)))))))) :=
    or_eq_add (shiftLeft_and_eq_zero U (by simp only [Nat.shiftLeft_eq]; omega))
  rw [z9]
  have z10 : (Qv <<< 30) ||| (U <<< 29 + (15 <<< 24 + (sz <<< 22 + (L <<< 21 + (M <<< 20 + (rm <<< 16 + (op <<< 12 + (H <<< 11 + (rn <<< 5 + rd)))))))))
      = Qv <<< 30 + (U <<< 29 + (15 <<< 24 + (sz <<< 22 + (L <<< 21 + (M <<< 20 + (rm <<< 16 + (op <<< 12 + (H <<< 11 + (rn <<< 5 + rd))))))))) :=
    or_eq_add (shiftLeft_and_eq_zero Qv (by simp only [Nat.shiftLeft_eq]; omega))
  rw [z10]
  simp only [Nat.shiftLeft_eq]
  omega

/-- The vector-by-indexed-element word as an arithmetic sum of its fields,
for the two-bit `H:L` index form (`M` fixed to 0, full `rm` range). -/
theorem vxWordValHL (Qv U sz L op H rm rn rd : Nat)
    (hU : U < 2) (hsz : sz < 4) (hL : L < 2) (hrm : rm < 32)
    (hop : op < 16) (hH : H < 2) (hrn : rn < 32) (hrd : rd < 32) :
    (0b0000111100000000000000 <<< 10) ||| (Qv <<< 30) ||| (U <<< 29) |||
      (sz <<< 22) ||| (L <<< 21) ||| (0 <<< 20) ||| (rm <<< 16) |||
      (op <<< 12) ||| (H <<< 11) ||| (rn <<< 5) ||| rd
    = Qv * 1073741824 + U * 536870912 + sz * 4194304 + L * 2097152 +
      rm * 65536 + op * 4096 + H * 2048 + rn * 32 + rd + 251658240 := by
  rw [show (0b0000111100000000000000 : Nat) <<< 10 = 15 <<< 24 from by decide]
  rw [orChain10]
  have z1 : (rn <<< 5) ||| rd = rn <<< 5 + rd :=
    or_eq_add (shiftLeft_and_eq_zero rn (by omega))
  rw [z1]
  have z2 : (H <<< 11) ||| (rn <<< 5 + rd) = H <<< 11 + (rn <<< 5 + rd) :=
    or_eq_add (shiftLeft_and_eq_zero H (by simp only [Nat.shiftLeft_eq]; omega))
  rw [z2]
  have z3 : (op <<< 12) ||| (H <<< 11 + (rn <<< 5 + rd))
      = op <<< 12 + (H <<< 11 + (rn <<< 5 + rd)) :=
    or_eq_add (shiftLeft_and_eq_zero op (by simp only [Nat.shiftLeft_eq]; omega))
  rw [z3]
  have z4 : (rm <<< 16) ||| (op <<< 12 + (H <<< 11 + (rn <<< 5 + rd)))
      = rm <<< 16 + (op <<< 12 + (H <<< 11 + (rn <<< 5 + rd))) :=
    or_eq_add (shiftLeft_and_eq_zero rm (by simp only [Nat.shiftLeft_eq]; omega))
  rw [z4]
  rw [show (0 : Nat) <<< 20 = 0 from rfl, Nat.zero_or]
  have z6 : (L <<< 21) ||| (rm <<< 16 + (op <<< 12 + (H <<< 11 + (rn <<< 5 + rd))))
      = L <<< 21 + (rm <<< 16 + (op <<< 12 + (H <<< 11 + (rn <<< 5 + rd)))) :=
    or_eq_add (shiftLeft_and_eq_zero L (by simp only [Nat.shiftLeft_eq]; omega))
  rw [z6]
  have z7 : (sz <<< 22) ||| (L <<< 21 + (rm <<< 16 + (op <<< 12 + (H <<< 11 + (rn <<< 5 + rd)))))
      = sz <<< 22 + (L <<< 21 + (rm <<< 16 + (op <<< 12 + (H <<< 11 + (rn <<< 5 + rd))))) :=
    or_eq_add (shiftLeft_and_eq_zero sz (by simp only [Nat.shiftLeft_eq]; omega))
  rw [z7]
  have z8 : (15 <<< 24) ||| (sz <<< 22 + (L <<< 21 + (rm <<< 16 + (op <<< 12 + (H <<< 11 + (rn <<< 5 + rd))))))
      = 15 <<< 24 + (sz <<< 22 + (L <<< 21 + (rm <<< 16 + (op <<< 12 + (H <<< 11 + (rn <<< 5 + rd)))))) :=
    or_eq_add (shiftLeft_and_eq_zero 15 (by simp only [Nat.shiftLeft_eq]; omega))
  rw [z8]
  have z9 : (U <<< 29) ||| (15 <<< 24 + (sz <<< 22 + (L <<< 21 + (rm <<< 16 + (op <<< 12 + (H <<< 11 + (rn <<< 5 + rd)))))))
      = U <<< 29 + (15 <<< 24 + (sz <<< 22 + (L <<< 21 + (rm <<< 16 + (op <<< 12 + (H <<< 11 + (rn <<< 5 + rd))))))) :=
    or_eq_add (shiftLeft_and_eq_zero U (by simp only [Nat.shiftLeft_eq]; omega))
  rw [z9]
  have z10 : (Qv <<< 30) ||| (U <<< 29 + (15 <<< 24 + (sz <<< 22 + (L <<< 21 + (rm <<< 16 + (op <<< 12 + (H <<< 11 + (rn <<< 5 + rd))))))))
      = Qv <<< 30 + (U <<< 29 + (15 <<< 24 + (sz <<< 22 + (L <<< 21 + (rm <<< 16 + (op <<< 12 + (H <<< 11 + (rn <<< 5 + rd)))))))) :=
    or_eq_add (shiftLeft_and_eq_zero Qv (by simp only [Nat.shiftLeft_eq]; omega))
  rw [z10]
  simp only [Nat.shiftLeft_eq]
  omega

theorem bits_range {size : SubRegSize} (h : size ≠ .i128Bit) :
    8 ≤ SubRegSizeInBits size ∧ SubRegSizeInBits size ≤ 64 := by
  cases size <;> simp_all [SubRegSizeInBits]

/-- Field computation of the whole right-shift-like family: with a legal
shift, the emitted word carries `immh = (2*esize - shift) >> 3` and
`immb = (2*esize - shift) & 0b111`. -/
theorem rightShiftFields (U op : Nat) (hU : U < 2) (hop : op < 32)
    (size : SubRegSize) (q : Bool) (rn rd : VReg) (s : Nat)
    (hsz : size ≠ .i128Bit) (h1 : 1 ≤ s) (h2 : s ≤ SubRegSizeInBits size) :
    (ASIMDShiftByImm U (u32sub (SubRegSizeInBits size * 2) s >>> 3)
        (u32sub (SubRegSizeInBits size * 2) s &&& 0b111) op q rn rd).map
      (fun w => (wordImmh w, wordImmb w))
    = some ((SubRegSizeInBits size * 2 - s) >>> 3,
            (SubRegSizeInBits size * 2 - s) &&& 0b111) := by
  have hb8 := bits_range hsz
  have hsub : u32sub (SubRegSizeInBits size * 2) s
      = SubRegSizeInBits size * 2 - s := u32sub_eq_sub (by omega) (by omega)
  rw [hsub]
  set f := SubRegSizeInBits size * 2 - s with hf
  have hfb : 8 ≤ f ∧ f ≤ 127 := by omega
  have hdiv : f >>> 3 = f / 8 := sr_div f 3
  have hmod : f &&& 7 = f % 8 := and_seven f
  have himmh : f >>> 3 < 16 := by rw [hdiv]; omega
  have himmb : f &&& 7 < 8 := by rw [hmod]; omega
  have hnz : f >>> 3 ≠ 0 := by rw [hdiv]; omega
  rw [ASIMDShiftByImm_val U _ _ op q rn rd hU himmh himmb hop hnz]
  simp only [Option.map_some', Option.some.injEq, Prod.mk.injEq]
  unfold wordImmh wordImmb
  simp only [sr_div, and_fifteen, and_seven]
  cases q <;> simp only [if_true, if_false, Bool.false_eq_true] <;>
    constructor <;> omega

/-- C1: every right-shift-like shift-by-immediate mnemonic (the `sshr`
family, the narrowing shift-right family) with element size `size_in_bits`
and a legal shift amount encodes the shift field as
`2 * size_in_bits - shift`, split into `immh = field >> 3` (word bits 19-22)
and `immb = field & 0b111` (word bits 16-18); in particular `sshr` with
32-bit elements and shift amount 10 computes `immh = 6` and `immb = 6`. -/
theorem c1_right_shift_field_encoding :
    (∀ size q (rd rn : VReg) s, ¬ (q = false ∧ size = SubRegSize.i64Bit) →
      size ≠ .i128Bit → 1 ≤ s → s ≤ SubRegSizeInBits size →
      (sshr size q rd rn s).map (fun w => (wordImmh w, wordImmb w)) =
        some ((SubRegSizeInBits size * 2 - s) >>> 3,
              (SubRegSizeInBits size * 2 - s) &&& 0b111)) ∧
    (∀ size q (rd rn : VReg) s, ¬ (q = false ∧ size = SubRegSize.i64Bit) →
      size ≠ .i128Bit → 1 ≤ s → s ≤ SubRegSizeInBits size →
      (ssra size q rd rn s).map (fun w => (wordImmh w, wordImmb w)) =
        some ((SubRegSizeInBits size * 2 - s) >>> 3,
              (SubRegSizeInBits size * 2 - s) &&& 0b111)) ∧
    (∀ size q (rd rn : VReg) s, ¬ (q = false ∧ size = SubRegSize.i64Bit) →
      size ≠ .i128Bit → 1 ≤ s → s ≤ SubRegSizeInBits size →
      (srshr size q rd rn s).map (fun w => (wordImmh w, wordImmb w)) =
        some ((SubRegSizeInBits size * 2 - s) >>> 3,
              (SubRegSizeInBits size * 2 - s) &&& 0b111)) ∧
    (∀ size q (rd rn : VReg) s, ¬ (q = false ∧ size = SubRegSize.i64Bit) →
      size ≠ .i128Bit → 1 ≤ s → s ≤ SubRegSizeInBits size →
      (srsra size q rd rn s).map (fun w => (wordImmh w, wordImmb w)) =
        some ((SubRegSizeInBits size * 2 - s) >>> 3,
              (SubRegSizeInBits size * 2 - s) &&& 0b111)) ∧
    (∀ size q (rd rn : VReg) s, ¬ (q = false ∧ size = SubRegSize.i64Bit) →
      size ≠ .i128Bit → 1 ≤ s → s ≤ SubRegSizeInBits size →
      (ushr size q rd rn s).map (fun w => (wordImmh w, wordImmb w)) =
        some ((SubRegSizeInBits size * 2 - s) >>> 3,
              (SubRegSizeInBits size * 2 - s) &&& 0b111)) ∧
    (∀ size q (rd rn : VReg) s, ¬ (q = false ∧ size = SubRegSize.i64Bit) →
      size ≠ .i128Bit → 1 ≤ s → s ≤ SubRegSizeInBits size →
      (usra size q rd rn s).map (fun w => (wordImmh w, wordImmb w)) =
        some ((SubRegSizeInBits size * 2 - s) >>> 3,
              (SubRegSizeInBits size * 2 - s) &&& 0b111)) ∧
    (∀ size q (rd rn : VReg) s, ¬ (q = false ∧ size = SubRegSize.i64Bit) →
      size ≠ .i128Bit → 1 ≤ s → s ≤ SubRegSizeInBits size →
      (urshr size q rd rn s).map (fun w => (wordImmh w, wordImmb w)) =
        some ((SubRegSizeInBits size * 2 - s) >>> 3,
              (SubRegSizeInBits size * 2 - s) &&& 0b111)) ∧
    (∀ size q (rd rn : VReg) s, ¬ (q = false ∧ size = SubRegSize.i64Bit) →
      size ≠ .i128Bit → 1 ≤ s → s ≤ SubRegSizeInBits size →
      (ursra size q rd rn s).map (fun w => (wordImmh w, wordImmb w)) =
        some ((SubRegSizeInBits size * 2 - s) >>> 3,
              (SubRegSizeInBits size * 2 - s) &&& 0b111)) ∧
    (∀ size q (rd rn : VReg) s, ¬ (q = false ∧ size = SubRegSize.i64Bit) →
      size ≠ .i128Bit → 1 ≤ s → s ≤ SubRegSizeInBits size →
      (sri size q rd rn s).map (fun w => (wordImmh w, wordImmb w)) =
        some ((SubRegSizeInBits size * 2 - s) >>> 3,
              (SubRegSizeInBits size * 2 - s) &&& 0b111)) ∧
    (∀ size (rd rn : VReg) s, size ≠ SubRegSize.i64Bit →
      size ≠ .i128Bit → 1 ≤ s → s ≤ SubRegSizeInBits size →
      (shrn size rd rn s).map (fun w => (wordImmh w, wordImmb w)) =
        some ((SubRegSizeInBits size * 2 - s) >>> 3,
              (SubRegSizeInBits size * 2 - s) &&& 0b111)) ∧
    (∀ size (rd rn : VReg) s, size ≠ SubRegSize.i64Bit →
      size ≠ .i128Bit → 1 ≤ s → s ≤ SubRegSizeInBits size →
      (rshrn size rd rn s).map (fun w => (wordImmh w, wordImmb w)) =
        some ((SubRegSizeInBits size * 2 - s) >>> 3,
              (SubRegSizeInBits size * 2 - s) &&& 0b111)) ∧
    (∀ size (rd rn : VReg) s, size ≠ SubRegSize.i64Bit →
      size ≠ .i128Bit → 1 ≤ s → s ≤ SubRegSizeInBits size →
      (sqshrn size rd rn s).map (fun w => (wordImmh w, wordImmb w)) =
        some ((SubRegSizeInBits size * 2 - s) >>> 3,
              (SubRegSizeInBits size * 2 - s) &&& 0b111)) ∧
    (∀ size (rd rn : VReg) s, size ≠ SubRegSize.i64Bit →
      size ≠ .i128Bit → 1 ≤ s → s ≤ SubRegSizeInBits size →
      (sqrshrn size rd rn s).map (fun w => (wordImmh w, wordImmb w)) =
        some ((SubRegSizeInBits size * 2 - s) >>> 3,
              (SubRegSizeInBits size * 2 - s) &&& 0b111)) ∧
    (∀ size (rd rn : VReg) s, size ≠ SubRegSize.i64Bit →
      size ≠ .i128Bit → 1 ≤ s → s ≤ SubRegSizeInBits size →
      (sqshrun size rd rn s).map (fun w => (wordImmh w, wordImmb w)) =
        some ((SubRegSizeInBits size * 2 - s) >>> 3,
              (SubRegSizeInBits size * 2 - s) &&& 0b111)) ∧
    (∀ size (rd rn : VReg) s, size ≠ SubRegSize.i64Bit →
      size ≠ .i128Bit → 1 ≤ s → s ≤ SubRegSizeInBits size →
      (sqrshrun size rd rn s).map (fun w => (wordImmh w, wordImmb w)) =
        some ((SubRegSizeInBits size * 2 - s) >>> 3,
              (SubRegSizeInBits size * 2 - s) &&& 0b111)) ∧
    (∀ size (rd rn : VReg) s, size ≠ .i128Bit →
      1 ≤ s → s ≤ SubRegSizeInBits size →
      (uqshrn size rd rn s).map (fun w => (wordImmh w, wordImmb w)) =
        some ((SubRegSizeInBits size * 2 - s) >>> 3,
              (SubRegSizeInBits size * 2 - s) &&& 0b111)) ∧
    (∀ size (rd rn : VReg) s, size ≠ .i128Bit →
      1 ≤ s → s ≤ SubRegSizeInBits size →
      (uqrshrn size rd rn s).map (fun w => (wordImmh w, wordImmb w)) =
        some ((SubRegSizeInBits size * 2 - s) >>> 3,
              (SubRegSizeInBits size * 2 - s) &&& 0b111)) ∧
    (sshr SubRegSize.i32Bit true 0 0 10).map
      (fun w => (wordImmh w, wordImmb w)) = some (6, 6) := by
  refine ⟨?_, ?_, ?_, ?_, ?_, ?_, ?_, ?_, ?_, ?_, ?_, ?_, ?_, ?_, ?_, ?_, ?_, ?_⟩
  · intro size q rd rn s hg h128 h1 h2
    simp only [sshr]
    rw [if_neg hg]
    exact rightShiftFields 0 0b00000 (by decide) (by decide) size q rn rd s h128 h1 h2
  · intro size q rd rn s hg h128 h1 h2
    simp only [ssra]
    rw [if_neg hg]
    exact rightShiftFields 0 0b00010 (by decide) (by decide) size q rn rd s h128 h1 h2
  · intro size q rd rn s hg h128 h1 h2
    simp only [srshr]
    rw [if_neg hg]
    exact rightShiftFields 0 0b00100 (by decide) (by decide) size q rn rd s h128 h1 h2
  · intro size q rd rn s hg h128 h1 h2
    simp only [srsra]
    rw [if_neg hg]
    exact rightShiftFields 0 0b00110 (by decide) (by decide) size q rn rd s h128 h1 h2
  · intro size q rd rn s hg h128 h1 h2
    simp only [ushr]
    rw [if_neg hg]
    exact rightShiftFields 1 0b00000 (by decide) (by decide) size q rn rd s h128 h1 h2
  · intro size q rd rn s hg h128 h1 h2
    simp only [usra]
    rw [if_neg hg]
    exact rightShiftFields 1 0b00010 (by decide) (by decide) size q rn rd s h128 h1 h2
  · intro size q rd rn s hg h128 h1 h2
    simp only [urshr]
    rw [if_neg hg]
    exact rightShiftFields 1 0b00100 (by decide) (by decide) size q rn rd s h128 h1 h2
  · intro size q rd rn s hg h128 h1 h2
    simp only [ursra]
    rw [if_neg hg]
    exact rightShiftFields 1 0b00110 (by decide) (by decide) size q rn rd s h128 h1 h2
  · intro size q rd rn s hg h128 h1 h2
    simp only [sri]
    rw [if_neg hg]
    exact rightShiftFields 1 0b01000 (by decide) (by decide) size q rn rd s h128 h1 h2
  · intro size rd rn s h64 h128 h1 h2
    simp only [shrn]
    rw [if_neg h64]
    exact rightShiftFields 0 0b10000 (by decide) (by decide) size false rn rd s h128 h1 h2
  · intro size rd rn s h64 h128 h1 h2
    simp only [rshrn]
    rw [if_neg h64]
    exact rightShiftFields 0 0b10001 (by decide) (by decide) size false rn rd s h128 h1 h2
  · intro size rd rn s h64 h128 h1 h2
    simp only [sqshrn]
    rw [if_neg h64]
    exact rightShiftFields 0 0b10010 (by decide) (by decide) size false rn rd s h128 h1 h2
  · intro size rd rn s h64 h128 h1 h2
    simp only [sqrshrn]
    rw [if_neg h64]
    exact rightShiftFields 0 0b10011 (by decide) (by decide) size false rn rd s h128 h1 h2
  · intro size rd rn s h64 h128 h1 h2
    simp only [sqshrun]
    rw [if_neg h64]
    exact rightShiftFields 1 0b10000 (by decide) (by decide) size false rn rd s h128 h1 h2
  · intro size rd rn s h64 h128 h1 h2
    simp only [sqrshrun]
    rw [if_neg h64]
    exact rightShiftFields 1 0b10001 (by decide) (by decide) size false rn rd s h128 h1 h2
  · intro size rd rn s h128 h1 h2
    simp only [uqshrn]
    exact rightShiftFields 1 0b10010 (by decide) (by decide) size false rn rd s h128 h1 h2
  · intro size rd rn s h128 h1 h2
    simp only [uqrshrn]
    exact rightShiftFields 1 0b10011 (by decide) (by decide) size false rn rd s h128 h1 h2
  · decide

/-- Witness for C1 at concrete inputs. -/
theorem c1_right_shift_field_encoding_witness :
    (sshr SubRegSize.i32Bit true 0 0 10).map
        (fun w => (wordImmh w, wordImmb w)) =
      some ((SubRegSizeInBits SubRegSize.i32Bit * 2 - 10) >>> 3,
            (SubRegSizeInBits SubRegSize.i32Bit * 2 - 10) &&& 0b111) :=
  c1_right_shift_field_encoding.1 SubRegSize.i32Bit true 0 0 10 (by decide)
    (by decide) (by decide) (by decide)

theorem wordImmhImmb_val (w : Nat) :
    wordImmhImmb w = wordImmh w * 8 + wordImmb w := by
  unfold wordImmhImmb
  rw [or_eq_add (shiftLeft_and_eq_zero (wordImmh w)
    (by unfold wordImmb; rw [and_seven]; omega))]
  rw [Nat.shiftLeft_eq]

/-- Decoding a right-shift-like word by the inverse formula recovers the
shift, for every legal nonzero shift. -/
theorem rightShiftDecode (U op : Nat) (hU : U < 2) (hop : op < 32)
    (size : SubRegSize) (q : Bool) (rn rd : VReg) (s : Nat)
    (hsz : size ≠ .i128Bit) (h1 : 1 ≤ s) (h2 : s ≤ SubRegSizeInBits size) :
    (ASIMDShiftByImm U (u32sub (SubRegSizeInBits size * 2) s >>> 3)
        (u32sub (SubRegSizeInBits size * 2) s &&& 0b111) op q rn rd).map
      (decodeRightShift (SubRegSizeInBits size)) = some s := by
  have hb8 := bits_range hsz
  have hsub : u32sub (SubRegSizeInBits size * 2) s
      = SubRegSizeInBits size * 2 - s := u32sub_eq_sub (by omega) (by omega)
  rw [hsub]
  set f := SubRegSizeInBits size * 2 - s with hf
  have hfb : 8 ≤ f ∧ f ≤ 127 := by omega
  have hdiv : f >>> 3 = f / 8 := sr_div f 3
  have hmod : f &&& 7 = f % 8 := and_seven f
  have himmh : f >>> 3 < 16 := by rw [hdiv]; omega
  have himmb : f &&& 7 < 8 := by rw [hmod]; omega
  have hnz : f >>> 3 ≠ 0 := by rw [hdiv]; omega
  rw [ASIMDShiftByImm_val U _ _ op q rn rd hU himmh himmb hop hnz]
  simp only [Option.map_some', Option.some.injEq]
  unfold decodeRightShift
  rw [wordImmhImmb_val]
  unfold wordImmh wordImmb
  simp only [sr_div, and_fifteen, and_seven, hdiv, hmod]
  cases q <;> simp only [if_true, if_false, Bool.false_eq_true] <;> omega

/-- Decoding a left-shift-like word by the inverse formula recovers the
shift, for every legal shift. -/
theorem leftShiftDecode (U op : Nat) (hU : U < 2) (hop : op < 32)
    (size : SubRegSize) (q : Bool) (rn rd : VReg) (s : Nat)
    (hsz : size ≠ .i128Bit) (h : s < SubRegSizeInBits size) :
    (ASIMDShiftByImm U (u32 (SubRegSizeInBits size + s) >>> 3)
        (u32 (SubRegSizeInBits size + s) &&& 0b111) op q rn rd).map
      (decodeLeftShift (SubRegSizeInBits size)) = some s := by
  have hb8 := bits_range hsz
  have hs : u32 (SubRegSizeInBits size + s) = SubRegSizeInBits size + s :=
    u32_eq_self (by omega)
  rw [hs]
  set f := SubRegSizeInBits size + s with hf
  have hfb : 8 ≤ f ∧ f ≤ 127 := by omega
  have hdiv : f >>> 3 = f / 8 := sr_div f 3
  have hmod : f &&& 7 = f % 8 := and_seven f
  have himmh : f >>> 3 < 16 := by rw [hdiv]; omega
  have himmb : f &&& 7 < 8 := by rw [hmod]; omega
  have hnz : f >>> 3 ≠ 0 := by rw [hdiv]; omega
  rw [ASIMDShiftByImm_val U _ _ op q rn rd hU himmh himmb hop hnz]
  simp only [Option.map_some', Option.some.injEq]
  unfold decodeLeftShift
  rw [wordImmhImmb_val]
  unfold wordImmh wordImmb
  simp only [sr_div, and_fifteen, and_seven, hdiv, hmod]
  cases q <;> simp only [if_true, if_false, Bool.false_eq_true] <;> omega

/-- C4 (amended): the shift round-trip holds for left-shift-like mnemonics
(`shl`, `sqshl`) for all shifts in `[0, size_in_bits)`, and for
right-shift-like mnemonics (`sshr`, `ushr`) for all shifts in
`[1, size_in_bits]`; at `(64-bit, shift 0)` — which the original claim's
range `[0, size_in_bits)` includes — the computed `immh = 16` overflows the
four-bit word field, so the word-level round-trip fails there. -/
theorem c4_shift_roundtrip :
    (∀ size q (rd rn : VReg) s, ¬ (q = false ∧ size = SubRegSize.i64Bit) →
      size ≠ .i128Bit → s < SubRegSizeInBits size →
      (shl size q rd rn s).map
        (decodeLeftShift (SubRegSizeInBits size)) = some s) ∧
    (∀ size q (rd rn : VReg) s, ¬ (q = false ∧ size = SubRegSize.i64Bit) →
      size ≠ .i128Bit → s < SubRegSizeInBits size →
      (sqshl size q rd rn s).map
        (decodeLeftShift (SubRegSizeInBits size)) = some s) ∧
    (∀ size q (rd rn : VReg) s, ¬ (q = false ∧ size = SubRegSize.i64Bit) →
      size ≠ .i128Bit → 1 ≤ s → s ≤ SubRegSizeInBits size →
      (sshr size q rd rn s).map
        (decodeRightShift (SubRegSizeInBits size)) = some s) ∧
    (∀ size q (rd rn : VReg) s, ¬ (q = false ∧ size = SubRegSize.i64Bit) →
      size ≠ .i128Bit → 1 ≤ s → s ≤ SubRegSizeInBits size →
      (ushr size q rd rn s).map
        (decodeRightShift (SubRegSizeInBits size)) = some s) := by
  refine ⟨?_, ?_, ?_, ?_⟩
  · intro size q rd rn s hg h128 h
    simp only [shl]
    rw [if_neg hg]
    exact leftShiftDecode 0 0b01010 (by decide) (by decide) size q rn rd s h128 h
  · intro size q rd rn s hg h128 h
    simp only [sqshl]
    rw [if_neg hg]
    exact leftShiftDecode 0 0b01110 (by decide) (by decide) size q rn rd s h128 h
  · intro size q rd rn s hg h128 h1 h2
    simp only [sshr]
    rw [if_neg hg]
    exact rightShiftDecode 0 0b00000 (by decide) (by decide) size q rn rd s h128 h1 h2
  · intro size q rd rn s hg h128 h1 h2
    simp only [ushr]
    rw [if_neg hg]
    exact rightShiftDecode 1 0b00000 (by decide) (by decide) size q rn rd s h128 h1 h2

/-- Witness for C4 (amended) at concrete inputs. -/
theorem c4_shift_roundtrip_witness :
    (shl SubRegSize.i8Bit true 1 2 3).map
        (decodeLeftShift (SubRegSizeInBits SubRegSize.i8Bit)) = some 3 ∧
    (sshr SubRegSize.i32Bit true 0 0 10).map
        (decodeRightShift (SubRegSizeInBits SubRegSize.i32Bit)) = some 10 :=
  ⟨c4_shift_roundtrip.1 SubRegSize.i8Bit true 1 2 3 (by decide) (by decide)
      (by decide),
    c4_shift_roundtrip.2.2.1 SubRegSize.i32Bit true 0 0 10 (by decide)
      (by decide) (by decide) (by decide)⟩

/-- C4 as stated is false: shift 0 lies in `[0, size_in_bits)`, yet for
`sshr` with 64-bit elements the emitted word decodes to 128, not 0, because
the computed `immh = 16` does not fit the four-bit `immh` word field. -/
theorem c4_counterexample :
    (sshr SubRegSize.i64Bit true 0 0 0).map (decodeRightShift 64) = some 128 ∧
    (sshr SubRegSize.i64Bit true 0 0 0).map (decodeRightShift 64) ≠ some 0 := by
  decide

theorem bits_all (size : SubRegSize) :
    8 ≤ SubRegSizeInBits size ∧ SubRegSizeInBits size ≤ 128 := by
  cases size <;> simp [SubRegSizeInBits]

theorem shiftByImm_isSome (U immh immb op : Nat) (q : Bool) (rn rd : VReg)
    (h : immh ≠ 0) : (ASIMDShiftByImm U immh immb op q rn rd).isSome := by
  unfold ASIMDShiftByImm
  rw [if_neg h]
  rfl

theorem rightImmhNZ (size : SubRegSize) (s : Nat)
    (h : s ≤ SubRegSizeInBits size) :
    u32sub (SubRegSizeInBits size * 2) s >>> 3 ≠ 0 := by
  have hb := bits_all size
  rw [u32sub_eq_sub (by omega) (by omega), sr_div]
  omega

theorem leftImmhNZ (size : SubRegSize) (s : Nat)
    (h : s < SubRegSizeInBits size) :
    u32 (SubRegSizeInBits size + s) >>> 3 ≠ 0 := by
  have hb := bits_all size
  rw [u32_eq_self (by omega), sr_div]
  omega

theorem sizeDecCast {size : SubRegSize} (h : size ≠ .i8Bit) :
    SubRegSize.ofUnderlying (u32sub size.toUnderlying 1) =
      some (sizeStepDown size) := by
  cases size
  · exact absurd rfl h
  all_goals decide

theorem sshllIsSome (size : SubRegSize) (rd rn : VReg) (s : Nat)
    (h8 : size ≠ .i8Bit) (hs : s < SubRegSizeInBits (sizeStepDown size)) :
    (sshll size rd rn s).isSome := by
  simp only [sshll]
  rw [if_neg h8, sizeDecCast h8]
  simp only [Option.some_bind]
  rw [if_neg (not_not_intro hs)]
  exact shiftByImm_isSome _ _ _ _ _ _ _ (leftImmhNZ _ s hs)

theorem sshll2IsSome (size : SubRegSize) (rd rn : VReg) (s : Nat)
    (h8 : size ≠ .i8Bit) (hs : s < SubRegSizeInBits (sizeStepDown size)) :
    (sshll2 size rd rn s).isSome := by
  simp only [sshll2]
  rw [if_neg h8, sizeDecCast h8]
  simp only [Option.some_bind]
  rw [if_neg (not_not_intro hs)]
  exact shiftByImm_isSome _ _ _ _ _ _ _ (leftImmhNZ _ s hs)

theorem ushllIsSome (size : SubRegSize) (rd rn : VReg) (s : Nat)
    (h8 : size ≠ .i8Bit) (hs : s < SubRegSizeInBits (sizeStepDown size)) :
    (ushll size rd rn s).isSome := by
  simp only [ushll]
  rw [sizeDecCast h8]
  simp only [Option.some_bind]
  exact shiftByImm_isSome _ _ _ _ _ _ _ (leftImmhNZ _ s hs)

theorem ushll2IsSome (size : SubRegSize) (rd rn : VReg) (s : Nat)
    (h8 : size ≠ .i8Bit) (hs : s < SubRegSizeInBits (sizeStepDown size)) :
    (ushll2 size rd rn s).isSome := by
  simp only [ushll2]
  rw [sizeDecCast h8]
  simp only [Option.some_bind]
  exact shiftByImm_isSome _ _ _ _ _ _ _ (leftImmhNZ _ s hs)

/-- C7: under the legality preconditions of every shift-by-immediate
mnemonic, the computed high immediate part `immh` is nonzero, so the
`immh = 0` contract-violation branch of the `ASIMDShiftByImm` category
encoder is unreachable and every such call emits a word. -/
theorem c7_immh_nonzero :
    (∀ size q (rd rn : VReg) s, ¬ (q = false ∧ size = SubRegSize.i64Bit) →
      s ≤ SubRegSizeInBits size → (sshr size q rd rn s).isSome) ∧
    (∀ size q (rd rn : VReg) s, ¬ (q = false ∧ size = SubRegSize.i64Bit) →
      s ≤ SubRegSizeInBits size → (ssra size q rd rn s).isSome) ∧
    (∀ size q (rd rn : VReg) s, ¬ (q = false ∧ size = SubRegSize.i64Bit) →
      s ≤ SubRegSizeInBits size → (srshr size q rd rn s).isSome) ∧
    (∀ size q (rd rn : VReg) s, ¬ (q = false ∧ size = SubRegSize.i64Bit) →
      s ≤ SubRegSizeInBits size → (srsra size q rd rn s).isSome) ∧
    (∀ size q (rd rn : VReg) s, ¬ (q = false ∧ size = SubRegSize.i64Bit) →
      s ≤ SubRegSizeInBits size → (ushr size q rd rn s).isSome) ∧
    (∀ size q (rd rn : VReg) s, ¬ (q = false ∧ size = SubRegSize.i64Bit) →
      s ≤ SubRegSizeInBits size → (usra size q rd rn s).isSome) ∧
    (∀ size q (rd rn : VReg) s, ¬ (q = false ∧ size = SubRegSize.i64Bit) →
      s ≤ SubRegSizeInBits size → (urshr size q rd rn s).isSome) ∧
    (∀ size q (rd rn : VReg) s, ¬ (q = false ∧ size = SubRegSize.i64Bit) →
      s ≤ SubRegSizeInBits size → (ursra size q rd rn s).isSome) ∧
    (∀ size q (rd rn : VReg) s, ¬ (q = false ∧ size = SubRegSize.i64Bit) →
      s ≤ SubRegSizeInBits size → (sri size q rd rn s).isSome) ∧
    (∀ size q (rd rn : VReg) s, ¬ (q = false ∧ size = SubRegSize.i64Bit) →
      s < SubRegSizeInBits size → (shl size q rd rn s).isSome) ∧
    (∀ size q (rd rn : VReg) s, ¬ (q = false ∧ size = SubRegSize.i64Bit) →
      s < SubRegSizeInBits size → (sqshl size q rd rn s).isSome) ∧
    (∀ size q (rd rn : VReg) s, ¬ (q = false ∧ size = SubRegSize.i64Bit) →
      s < SubRegSizeInBits size → (sli size q rd rn s).isSome) ∧
    (∀ size q (rd rn : VReg) s, ¬ (q = false ∧ size = SubRegSize.i64Bit) →
      s < SubRegSizeInBits size → (sqshlu size q rd rn s).isSome) ∧
    (∀ size q (rd rn : VReg) s, ¬ (q = false ∧ size = SubRegSize.i64Bit) →
      s < SubRegSizeInBits size → (uqshl size q rd rn s).isSome) ∧
    (∀ size (rd rn : VReg) s, size ≠ SubRegSize.i64Bit →
      s ≤ SubRegSizeInBits size → (shrn size rd rn s).isSome) ∧
    (∀ size (rd rn : VReg) s, size ≠ SubRegSize.i64Bit →
      s ≤ SubRegSizeInBits size → (shrn2 size rd rn s).isSome) ∧
    (∀ size (rd rn : VReg) s, size ≠ SubRegSize.i64Bit →
      s ≤ SubRegSizeInBits size → (rshrn size rd rn s).isSome) ∧
    (∀ size (rd rn : VReg) s, size ≠ SubRegSize.i64Bit →
      s ≤ SubRegSizeInBits size → (rshrn2 size rd rn s).isSome) ∧
    (∀ size (rd rn : VReg) s, size ≠ SubRegSize.i64Bit →
      s ≤ SubRegSizeInBits size → (sqshrn size rd rn s).isSome) ∧
    (∀ size (rd rn : VReg) s, size ≠ SubRegSize.i64Bit →
      s ≤ SubRegSizeInBits size → (sqshrn2 size rd rn s).isSome) ∧
    (∀ size (rd rn : VReg) s, size ≠ SubRegSize.i64Bit →
      s ≤ SubRegSizeInBits size → (sqrshrn size rd rn s).isSome) ∧
    (∀ size (rd rn : VReg) s, size ≠ SubRegSize.i64Bit →
      s ≤ SubRegSizeInBits size → (sqrshrn2 size rd rn s).isSome) ∧
    (∀ size (rd rn : VReg) s, size ≠ SubRegSize.i64Bit →
      s ≤ SubRegSizeInBits size → (sqshrun size rd rn s).isSome) ∧
    (∀ size (rd rn : VReg) s, size ≠ SubRegSize.i64Bit →
      s ≤ SubRegSizeInBits size → (sqshrun2 size rd rn s).isSome) ∧
    (∀ size (rd rn : VReg) s, size ≠ SubRegSize.i64Bit →
      s ≤ SubRegSizeInBits size → (sqrshrun size rd rn s).isSome) ∧
    (∀ size (rd rn : VReg) s, size ≠ SubRegSize.i64Bit →
      s ≤ SubRegSizeInBits size → (sqrshrun2 size rd rn s).isSome) ∧
    (∀ size (rd rn : VReg) s, s ≤ SubRegSizeInBits size →
      (uqshrn size rd rn s).isSome) ∧
    (∀ size (rd rn : VReg) s, s ≤ SubRegSizeInBits size →
      (uqshrn2 size rd rn s).isSome) ∧
    (∀ size (rd rn : VReg) s, s ≤ SubRegSizeInBits size →
      (uqrshrn size rd rn s).isSome) ∧
    (∀ size (rd rn : VReg) s, s ≤ SubRegSizeInBits size →
      (uqrshrn2 size rd rn s).isSome) ∧
    (∀ size (rd rn : VReg) s, size ≠ SubRegSize.i8Bit →
      s < SubRegSizeInBits (sizeStepDown size) → (sshll size rd rn s).isSome) ∧
    (∀ size (rd rn : VReg) s, size ≠ SubRegSize.i8Bit →
      s < SubRegSizeInBits (sizeStepDown size) → (sshll2 size rd rn s).isSome) ∧
    (∀ size (rd rn : VReg) s, size ≠ SubRegSize.i8Bit →
      s < SubRegSizeInBits (sizeStepDown size) → (ushll size rd rn s).isSome) ∧
    (∀ size (rd rn : VReg) s, size ≠ SubRegSize.i8Bit →
      s < SubRegSizeInBits (sizeStepDown size) → (ushll2 size rd rn s).isSome) ∧
    (∀ size (rd rn : VReg), size ≠ SubRegSize.i8Bit →
      (sxtl size rd rn).isSome) ∧
    (∀ size (rd rn : VReg), size ≠ SubRegSize.i8Bit →
      (sxtl2 size rd rn).isSome) ∧
    (∀ size (rd rn : VReg), size ≠ SubRegSize.i8Bit →
      (uxtl size rd rn).isSome) ∧
    (∀ size (rd rn : VReg), size ≠ SubRegSize.i8Bit →
      (uxtl2 size rd rn).isSome) ∧
    (∀ size q (rd rn : VReg) fb, size ≠ SubRegSize.i8Bit →
      ¬ (q = false ∧ size = SubRegSize.i64Bit) →
      fb < SubRegSizeInBits size → (scvtf size q rd rn fb).isSome) ∧
    (∀ size q (rd rn : VReg) fb, size ≠ SubRegSize.i8Bit →
      ¬ (q = false ∧ size = SubRegSize.i64Bit) →
      fb < SubRegSizeInBits size → (fcvtzs size q rd rn fb).isSome) ∧
    (∀ size q (rd rn : VReg) fb, size ≠ SubRegSize.i8Bit →
      ¬ (q = false ∧ size = SubRegSize.i64Bit) →
      fb < SubRegSizeInBits size → (ucvtf size q rd rn fb).isSome) ∧
    (∀ size q (rd rn : VReg) fb, size ≠ SubRegSize.i8Bit →
      ¬ (q = false ∧ size = SubRegSize.i64Bit) →
      fb < SubRegSizeInBits size → (fcvtzu size q rd rn fb).isSome) := by
  refine ⟨?_, ?_, ?_, ?_, ?_, ?_, ?_, ?_, ?_, ?_, ?_, ?_, ?_, ?_, ?_, ?_, ?_, ?_, ?_, ?_, ?_, ?_, ?_, ?_, ?_, ?_, ?_, ?_, ?_, ?_, ?_, ?_, ?_, ?_, ?_, ?_, ?_, ?_, ?_, ?_, ?_, ?_⟩
  · intro size q rd rn s hg hs
    simp only [sshr]
    rw [if_neg hg]
    exact shiftByImm_isSome _ _ _ _ _ _ _ (rightImmhNZ size s hs)
  · intro size q rd rn s hg hs
    simp only [ssra]
    rw [if_neg hg]
    exact shiftByImm_isSome _ _ _ _ _ _ _ (rightImmhNZ size s hs)
  · intro size q rd rn s hg hs
    simp only [srshr]
    rw [if_neg hg]
    exact shiftByImm_isSome _ _ _ _ _ _ _ (rightImmhNZ size s hs)
  · intro size q rd rn s hg hs
    simp only [srsra]
    rw [if_neg hg]
    exact shiftByImm_isSome _ _ _ _ _ _ _ (rightImmhNZ size s hs)
  · intro size q rd rn s hg hs
    simp only [ushr]
    rw [if_neg hg]
    exact shiftByImm_isSome _ _ _ _ _ _ _ (rightImmhNZ size s hs)
  · intro size q rd rn s hg hs
    simp only [usra]
    rw [if_neg hg]
    exact shiftByImm_isSome _ _ _ _ _ _ _ (rightImmhNZ size s hs)
  · intro size q rd rn s hg hs
    simp only [urshr]
    rw [if_neg hg]
    exact shiftByImm_isSome _ _ _ _ _ _ _ (rightImmhNZ size s hs)
  · intro size q rd rn s hg hs
    simp only [ursra]
    rw [if_neg hg]
    exact shiftByImm_isSome _ _ _ _ _ _ _ (rightImmhNZ size s hs)
  · intro size q rd rn s hg hs
    simp only [sri]
    rw [if_neg hg]
    exact shiftByImm_isSome _ _ _ _ _ _ _ (rightImmhNZ size s hs)
  · intro size q rd rn s hg hs
    simp only [shl]
    rw [if_neg hg]
    exact shiftByImm_isSome _ _ _ _ _ _ _ (leftImmhNZ size s hs)
  · intro size q rd rn s hg hs
    simp only [sqshl]
    rw [if_neg hg]
    exact shiftByImm_isSome _ _ _ _ _ _ _ (leftImmhNZ size s hs)
  · intro size q rd rn s hg hs
    simp only [sli]
    rw [if_neg hg]
    exact shiftByImm_isSome _ _ _ _ _ _ _ (leftImmhNZ size s hs)
  · intro size q rd rn s hg hs
    simp only [sqshlu]
    rw [if_neg hg]
    exact shiftByImm_isSome _ _ _ _ _ _ _ (leftImmhNZ size s hs)
  · intro size q rd rn s hg hs
    simp only [uqshl]
    rw [if_neg hg]
    exact shiftByImm_isSome _ _ _ _ _ _ _ (leftImmhNZ size s hs)
  · intro size rd rn s h64 hs
    simp only [shrn]
    rw [if_neg h64]
    exact shiftByImm_isSome _ _ _ _ _ _ _ (rightImmhNZ size s hs)
  · intro size rd rn s h64 hs
    simp only [shrn2]
    rw [if_neg h64]
    exact shiftByImm_isSome _ _ _ _ _ _ _ (rightImmhNZ size s hs)
  · intro size rd rn s h64 hs
    simp only [rshrn]
    rw [if_neg h64]
    exact shiftByImm_isSome _ _ _ _ _ _ _ (rightImmhNZ size s hs)
  · intro size rd rn s h64 hs
    simp only [rshrn2]
    rw [if_neg h64]
    exact shiftByImm_isSome _ _ _ _ _ _ _ (rightImmhNZ size s hs)
  · intro size rd rn s h64 hs
    simp only [sqshrn]
    rw [if_neg h64]
    exact shiftByImm_isSome _ _ _ _ _ _ _ (rightImmhNZ size s hs)
  · intro size rd rn s h64 hs
    simp only [sqshrn2]
    rw [if_neg h64]
    exact shiftByImm_isSome _ _ _ _ _ _ _ (rightImmhNZ size s hs)
  · intro size rd rn s h64 hs
    simp only [sqrshrn]
    rw [if_neg h64]
    exact shiftByImm_isSome _ _ _ _ _ _ _ (rightImmhNZ size s hs)
  · intro size rd rn s h64 hs
    simp only [sqrshrn2]
    rw [if_neg h64]
    exact shiftByImm_isSome _ _ _ _ _ _ _ (rightImmhNZ size s hs)
  · intro size rd rn s h64 hs
    simp only [sqshrun]
    rw [if_neg h64]
    exact shiftByImm_isSome _ _ _ _ _ _ _ (rightImmhNZ size s hs)
  · intro size rd rn s h64 hs
    simp only [sqshrun2]
    rw [if_neg h64]
    exact shiftByImm_isSome _ _ _ _ _ _ _ (rightImmhNZ size s hs)
  · intro size rd rn s h64 hs
    simp only [sqrshrun]
    rw [if_neg h64]
    exact shiftByImm_isSome _ _ _ _ _ _ _ (rightImmhNZ size s hs)
  · intro size rd rn s h64 hs
    simp only [sqrshrun2]
    rw [if_neg h64]
    exact shiftByImm_isSome _ _ _ _ _ _ _ (rightImmhNZ size s hs)
  · intro size rd rn s hs
    simp only [uqshrn]
    exact shiftByImm_isSome _ _ _ _ _ _ _ (rightImmhNZ size s hs)
  · intro size rd rn s hs
    simp only [uqshrn2]
    exact shiftByImm_isSome _ _ _ _ _ _ _ (rightImmhNZ size s hs)
  · intro size rd rn s hs
    simp only [uqrshrn]
    exact shiftByImm_isSome _ _ _ _ _ _ _ (rightImmhNZ size s hs)
  · intro size rd rn s hs
    simp only [uqrshrn2]
    exact shiftByImm_isSome _ _ _ _ _ _ _ (rightImmhNZ size s hs)
  · exact sshllIsSome
  · exact sshll2IsSome
  · exact ushllIsSome
  · exact ushll2IsSome
  · intro size rd rn h8
    have hb := bits_all (sizeStepDown size)
    exact sshllIsSome size rd rn 0 h8 (by omega)
  · intro size rd rn h8
    have hb := bits_all (sizeStepDown size)
    exact sshll2IsSome size rd rn 0 h8 (by omega)
  · intro size rd rn h8
    have hb := bits_all (sizeStepDown size)
    exact ushllIsSome size rd rn 0 h8 (by omega)
  · intro size rd rn h8
    have hb := bits_all (sizeStepDown size)
    exact ushll2IsSome size rd rn 0 h8 (by omega)
  · intro size q rd rn fb h8 hg hfb
    simp only [scvtf]
    rw [if_neg h8, if_neg hg, if_neg (not_not_intro hfb)]
    exact shiftByImm_isSome _ _ _ _ _ _ _ (rightImmhNZ size fb (le_of_lt hfb))
  · intro size q rd rn fb h8 hg hfb
    simp only [fcvtzs]
    rw [if_neg h8, if_neg hg, if_neg (not_not_intro hfb)]
    exact shiftByImm_isSome _ _ _ _ _ _ _ (rightImmhNZ size fb (le_of_lt hfb))
  · intro size q rd rn fb h8 hg hfb
    simp only [ucvtf]
    rw [if_neg h8, if_neg hg, if_neg (not_not_intro hfb)]
    exact shiftByImm_isSome _ _ _ _ _ _ _ (rightImmhNZ size fb (le_of_lt hfb))
  · intro size q rd rn fb h8 hg hfb
    simp only [fcvtzu]
    rw [if_neg h8, if_neg hg, if_neg (not_not_intro hfb)]
    exact shiftByImm_isSome _ _ _ _ _ _ _ (rightImmhNZ size fb (le_of_lt hfb))

/-- Witness for C7 at concrete inputs. -/
theorem c7_immh_nonzero_witness :
    (sshr SubRegSize.i32Bit true 0 0 10).isSome ∧
    (shl SubRegSize.i8Bit false 3 4 5).isSome ∧
    (uxtl2 SubRegSize.i16Bit 6 7).isSome :=
  ⟨c7_immh_nonzero.1 SubRegSize.i32Bit true 0 0 10 (by decide) (by decide),
    (c7_immh_nonzero.2.2.2.2.2.2.2.2.2).1 SubRegSize.i8Bit false 3 4 5
      (by decide) (by decide),
    ((c7_immh_nonzero.2.2.2.2.2.2.2.2.2.2.2.2.2.2.2.2.2.2.2.2.2.2.2.2.2.2.2.2.2.2.2.2.2.2.2).2.2).1
      SubRegSize.i16Bit 6 7 (by decide)⟩

theorem moviFold_none (Imm : Nat) (l : List Nat) :
    l.foldl (fun acc i => moviByteStep Imm i acc) none = none := by
  induction l with
  | nil => rfl
  | cons x xs ih => simpa [moviByteStep] using ih

theorem moviFold_isSome_bytes (Imm : Nat) (l : List Nat) (acc : Option Nat)
    (h : (l.foldl (fun acc i => moviByteStep Imm i acc) acc).isSome) :
    ∀ i ∈ l, byteAt Imm i = 0 ∨ byteAt Imm i = 255 := by
  induction l generalizing acc with
  | nil => intro i hi; cases hi
  | cons x xs ih =>
    intro i hi
    rw [List.foldl_cons] at h
    rcases List.mem_cons.mp hi with rfl | hmem
    · by_contra hbad
      push_neg at hbad
      have hstep : moviByteStep Imm i acc = none := by
        cases acc with
        | none => rfl
        | some a =>
          simp only [moviByteStep, Option.some_bind]
          rw [show (Imm >>> (i * 8)) &&& 255 = byteAt Imm i from rfl,
            if_neg hbad.1, if_neg hbad.2]
      rw [hstep, moviFold_none] at h
      simp at h
    · exact ih (moviByteStep Imm x acc) h i hmem

/-- One good step of the `movi` compression loop, resolved: a `0x00` byte
leaves the accumulator unchanged, a `0xFF` byte sets bit `i`. -/
theorem moviStep_good (Imm i a : Nat)
    (h : byteAt Imm i = 0 ∨ byteAt Imm i = 255) :
    moviByteStep Imm i (some a)
      = some (a ||| ((if byteAt Imm i = 255 then 1 else 0) <<< i)) := by
  simp only [moviByteStep, Option.some_bind]
  rw [show (Imm >>> (i * 8)) &&& 255 = byteAt Imm i from rfl]
  rcases h with h | h
  · rw [if_pos h, if_neg (by omega), Nat.zero_shiftLeft, Nat.or_zero]
  · rw [if_neg (by omega), if_pos h, if_pos h]

theorem byteAt_base256 (Imm i : Nat) : byteAt Imm i = Imm / 256 ^ i % 256 := by
  unfold byteAt
  rw [sr_div, and_twofivefive, Nat.mul_comm i 8, Nat.pow_mul]

theorem expandN_congr {a b : Nat} : ∀ {n : Nat},
    (∀ i, i < n → a.testBit i = b.testBit i) → expandN n a = expandN n b := by
  intro n
  induction n with
  | zero => intro _; rfl
  | succ n ih =>
    intro h
    show expandN n a + _ = expandN n b + _
    rw [ih (fun i hi => h i (by omega)), h n (by omega)]

/-- Invariant of the `movi` 64-bit compression loop over the first `n`
bytes: it succeeds, produces an `n`-bit accumulator whose bit `i` records
whether byte `i` was `0xFF`, and expanding the accumulator reproduces the
low `n` bytes of the input. -/
theorem moviFold_spec (Imm : Nat) : ∀ n : Nat,
    (∀ i, i < n → byteAt Imm i = 0 ∨ byteAt Imm i = 255) →
    ∃ c, (List.range n).foldl (fun acc i => moviByteStep Imm i acc) (some 0)
        = some c
      ∧ c < 2 ^ n
      ∧ expandN n c = Imm % 256 ^ n
      ∧ (∀ i, i < n → c.testBit i = decide (byteAt Imm i = 255)) := by
  intro n
  induction n with
  | zero =>
    intro _
    exact ⟨0, rfl, by norm_num, by simp [expandN, Nat.mod_one], fun i hi => by omega⟩
  | succ n ih =>
    intro hb
    obtain ⟨c, hc, hlt, hexp, hbit⟩ := ih (fun i hi => hb i (by omega))
    rw [List.range_succ, List.foldl_append, hc]
    simp only [List.foldl_cons, List.foldl_nil]
    rcases hb n (by omega) with h | h
    · refine ⟨c, ?_, by rw [pow_succ]; omega, ?_, ?_⟩
      · rw [moviStep_good Imm n c (Or.inl h), if_neg (by omega),
          Nat.zero_shiftLeft, Nat.or_zero]
      · show expandN n c + (if c.testBit n then 255 * 256 ^ n else 0) = _
        rw [show c.testBit n = false from Nat.testBit_lt_two_pow hlt]
        have h0 : Imm / 256 ^ n % 256 = 0 := by rw [← byteAt_base256]; exact h
        rw [Nat.mod_pow_succ, h0]
        simp [hexp]
      · intro i hi
        rcases Nat.lt_succ_iff_lt_or_eq.mp hi with hi' | rfl
        · exact hbit i hi'
        · rw [show c.testBit i = false from Nat.testBit_lt_two_pow hlt, h]
          simp
    · have hc' : c ||| 1 <<< n = c + 2 ^ n := by
        rw [Nat.or_comm, or_eq_add (shiftLeft_and_eq_zero 1 hlt),
          Nat.one_shiftLeft]
        omega
      rw [moviStep_good Imm n c (Or.inr h), if_pos h, hc']
      have hbitn : (c + 2 ^ n).testBit n = true := by
        rw [Nat.add_comm, Nat.testBit_two_pow_add_eq,
          show c.testBit n = false from Nat.testBit_lt_two_pow hlt]
        rfl
      have hbitlow : ∀ i, i < n → (c + 2 ^ n).testBit i = c.testBit i := by
        intro i hi
        rw [Nat.add_comm, Nat.testBit_two_pow_add_gt hi]
      refine ⟨c + 2 ^ n, rfl, by rw [pow_succ]; omega, ?_, ?_⟩
      · show expandN n (c + 2 ^ n)
            + (if (c + 2 ^ n).testBit n then 255 * 256 ^ n else 0) = _
        rw [expandN_congr hbitlow, hbitn]
        have h255 : Imm / 256 ^ n % 256 = 255 := by rw [← byteAt_base256]; exact h
        rw [Nat.mod_pow_succ, h255]
        simp only [if_true]
        omega
      · intro i hi
        rcases Nat.lt_succ_iff_lt_or_eq.mp hi with hi' | rfl
        · rw [hbitlow i hi']; exact hbit i hi'
        · rw [hbitn, h]
          simp

/-- The 64-bit `movi` compression, on an input whose bytes are all `0x00`
or `0xFF`: it succeeds, expanding the compressed form recovers the input,
and bit `i` of the compressed form is set exactly when byte `i` is `0xFF`. -/
theorem movi64Compress_spec (Imm : Nat) (h64 : Imm < 18446744073709551616)
    (hb : ∀ i, i < 8 → byteAt Imm i = 0 ∨ byteAt Imm i = 255) :
    ∃ c, movi64Compress Imm = some c
      ∧ expand64 c = Imm
      ∧ (∀ i, i < 8 → c.testBit i = decide (byteAt Imm i = 255)) := by
  obtain ⟨c, hc, hlt, hexp, hbit⟩ := moviFold_spec Imm 8 hb
  refine ⟨c, hc, ?_, hbit⟩
  unfold expand64
  rw [hexp, Nat.mod_eq_of_lt (by norm_num; omega)]

theorem movi64_eq (q : Bool) (rd : VReg) (Imm : Nat) :
    movi SubRegSize.i64Bit q rd Imm 0
      = (movi64Compress Imm).map fun NewImm =>
          ASIMDModifiedImm 1 0b1110 0 NewImm q rd := rfl

/-- C6: for the 64-bit `movi`, every input whose eight bytes are each
`0x00` or `0xFF` is compressed to an 8-bit immediate with one bit per byte
(bit `i` set exactly when byte `i` is `0xFF`), expanding the 8-bit form
recovers the original 64-bit value, and a word is emitted; any input with
any other byte value is rejected before emission. -/
theorem c6_movi64_roundtrip :
    (∀ (q : Bool) (rd : VReg) Imm, Imm < 18446744073709551616 →
      (∀ i, i < 8 → byteAt Imm i = 0 ∨ byteAt Imm i = 255) →
      (movi SubRegSize.i64Bit q rd Imm 0).isSome ∧
        expand64 ((movi64Compress Imm).getD 0) = Imm ∧
        (∀ i, i < 8 → ((movi64Compress Imm).getD 0).testBit i
          = decide (byteAt Imm i = 255))) ∧
    (∀ (q : Bool) (rd : VReg) Imm i, i < 8 → byteAt Imm i ≠ 0 →
      byteAt Imm i ≠ 255 → movi SubRegSize.i64Bit q rd Imm 0 = none) := by
  constructor
  · intro q rd Imm h64 hb
    obtain ⟨c, hc, hexp, hbit⟩ := movi64Compress_spec Imm h64 hb
    refine ⟨?_, ?_, ?_⟩
    · rw [movi64_eq, hc]
      rfl
    · rw [hc]
      exact hexp
    · rw [hc]
      exact hbit
  · intro q rd Imm i hi h0 h255
    have hnone : movi64Compress Imm = none := by
      cases hcc : movi64Compress Imm with
      | none => rfl
      | some c =>
        have hgood := moviFold_isSome_bytes Imm (List.range 8) (some 0)
          (by unfold movi64Compress at hcc; rw [hcc]; rfl) i
          (List.mem_range.mpr hi)
        rcases hgood with hg | hg
        · exact absurd hg h0
        · exact absurd hg h255
    rw [movi64_eq, hnone]
    rfl

/-- Witness for C6 at concrete inputs. -/
theorem c6_movi64_roundtrip_witness :
    (movi SubRegSize.i64Bit true 0 71777214294589695 0).isSome ∧
    expand64 ((movi64Compress 71777214294589695).getD 0) = 71777214294589695 ∧
    movi SubRegSize.i64Bit true 0 71777214294589951 0 = none := by
  obtain ⟨ha, hb, -⟩ := c6_movi64_roundtrip.1 true 0 71777214294589695
    (by norm_num) (by decide)
  exact ⟨ha, hb, c6_movi64_roundtrip.2 true 0 71777214294589951 1 (by decide)
    (by decide) (by decide)⟩

/-- C8: for every pair of vector registers and register width, the
register-move alias `mov(rd, rn)` emits a word bit-identical to
`orr(rd, rn, rn)` with the source operand duplicated — `mov` is trivial
forwarding to `orr`. -/
theorem c8_mov_orr_alias : ∀ (q : Bool) (rd rn : VReg),
    mov q rd rn = orr q rd rn rn :=
  fun _ _ _ => rfl

/-- C3: the widening mnemonics that derive their source element size one
enumeration step below the destination size (`ushll2`/`uxtl2`, which have no
explicit size check, as well as `ushll`/`uxtl` and the checked
`sshll`/`sshll2`) fail for an 8-bit destination size rather than emit a
word, and the narrowing `shrn`/`shrn2` fail for a disallowed 64-bit
destination size. -/
theorem c3_boundary_size_conversion :
    (∀ (rd rn : VReg) s, ushll2 SubRegSize.i8Bit rd rn s = none) ∧
    (∀ (rd rn : VReg), uxtl2 SubRegSize.i8Bit rd rn = none) ∧
    (∀ (rd rn : VReg) s, ushll SubRegSize.i8Bit rd rn s = none) ∧
    (∀ (rd rn : VReg), uxtl SubRegSize.i8Bit rd rn = none) ∧
    (∀ (rd rn : VReg) s, sshll SubRegSize.i8Bit rd rn s = none) ∧
    (∀ (rd rn : VReg) s, sshll2 SubRegSize.i8Bit rd rn s = none) ∧
    (∀ (rd rn : VReg) s, shrn SubRegSize.i64Bit rd rn s = none) ∧
    (∀ (rd rn : VReg) s, shrn2 SubRegSize.i64Bit rd rn s = none) := by
  refine ⟨fun rd rn s => rfl, fun rd rn => rfl, fun rd rn s => rfl,
    fun rd rn => rfl, fun rd rn s => rfl, fun rd rn s => rfl,
    fun rd rn s => rfl, fun rd rn s => rfl⟩

/-- C10: the vector floating-point immediate load `fmov` unconditionally
fails for the 16-bit element size, for every register, every value, and
every behaviour of the external IEEE754-to-immediate converters, even
though 16 bits satisfies the standard-float-size predicate gating the
operation; only the 32-bit and 64-bit element sizes can produce a word. -/
theorem c10_fmov_16bit_unsupported :
    (∀ (fp32 fp64 : Nat → Nat) (q : Bool) (rd : VReg) v,
      fmov fp32 fp64 SubRegSize.i16Bit q rd v = none) ∧
    IsStandardFloatSize SubRegSize.i16Bit = true ∧
    (∀ (fp32 fp64 : Nat → Nat) size (q : Bool) (rd : VReg) v,
      (fmov fp32 fp64 size q rd v).isSome →
        size = SubRegSize.i32Bit ∨ size = SubRegSize.i64Bit) ∧
    (∀ (fp32 fp64 : Nat → Nat) (q : Bool) (rd : VReg) v,
      (fmov fp32 fp64 SubRegSize.i32Bit q rd v).isSome) ∧
    (∀ (fp32 fp64 : Nat → Nat) (rd : VReg) v,
      (fmov fp32 fp64 SubRegSize.i64Bit true rd v).isSome) := by
  refine ⟨?_, rfl, ?_, ?_, ?_⟩
  · intro fp32 fp64 q rd v
    cases q <;> rfl
  · intro fp32 fp64 size q rd v h
    cases size with
    | i32Bit => exact Or.inl rfl
    | i64Bit => exact Or.inr rfl
    | i8Bit =>
      have hnone : fmov fp32 fp64 SubRegSize.i8Bit q rd v = none := by
        cases q <;> rfl
      rw [hnone] at h
      simp at h
    | i16Bit =>
      have hnone : fmov fp32 fp64 SubRegSize.i16Bit q rd v = none := by
        cases q <;> rfl
      rw [hnone] at h
      simp at h
    | i128Bit =>
      have hnone : fmov fp32 fp64 SubRegSize.i128Bit q rd v = none := by
        cases q <;> rfl
      rw [hnone] at h
      simp at h
  · intro fp32 fp64 q rd v
    cases q <;> rfl
  · intro fp32 fp64 rd v
    rfl

set_option maxHeartbeats 2000000 in
/-- C9 (amended): every floating-point three-register mnemonic passes only
the element sizes `{16,32,64}` through the standard-float-size gate, and a
16-bit element size routes to the FP16 category template. Only one group —
`fmaxnm`, `fmla`, `fadd`, `fmulx`, `fcmeq`, `fmax`, `frecps`, `fmaxnmp`,
`faddp`, `fmul`, `fcmge`, `facge`, `fmaxp`, `fdiv` — reuses the integer
three-same template with the size field remapped (64-bit float to the
16-bit integer enumerant, 32-bit float to the 8-bit integer enumerant);
the other group — `fminnm`, `fmls`, `fsub`, `fmin`, `frsqrts`, `fminnmp`,
`fabd`, `fcmgt`, `facgt`, `fminp` — passes the element-size enumerant
through to the integer template unchanged. -/
theorem c9_float_three_same_routing :
    (∀ size (q : Bool) (rd rn rm : VReg),
      (fmul size q rd rn rm).isSome ↔
        (IsStandardFloatSize size ∧ ¬ (q = false ∧ size = SubRegSize.i64Bit))) ∧
    (∀ size (q : Bool) (rd rn rm : VReg),
      (fminnmp size q rd rn rm).isSome ↔
        (IsStandardFloatSize size ∧ ¬ (q = false ∧ size = SubRegSize.i64Bit))) ∧
    (∀ (q : Bool) (rd rn rm : VReg),
      fmul SubRegSize.i16Bit q rd rn rm
        = some (ASIMDThreeSameFP16 1 0 0b011 q rm rn rd)) ∧
    (∀ (q : Bool) (rd rn rm : VReg),
      fmul SubRegSize.i32Bit q rd rn rm
        = some (ASIMD3Same 1 SubRegSize.i8Bit 0b11011 q rd rn rm)) ∧
    (∀ (rd rn rm : VReg),
      fmul SubRegSize.i64Bit true rd rn rm
        = some (ASIMD3Same 1 SubRegSize.i16Bit 0b11011 true rd rn rm)) ∧
    (∀ (q : Bool) (rd rn rm : VReg),
      fminnmp SubRegSize.i16Bit q rd rn rm
        = some (ASIMDThreeSameFP16 1 1 0b000 q rm rn rd)) ∧
    (∀ (q : Bool) (rd rn rm : VReg),
      fminnmp SubRegSize.i32Bit q rd rn rm
        = some (ASIMD3Same 1 SubRegSize.i32Bit 0b11000 q rd rn rm)) ∧
    (∀ (rd rn rm : VReg),
      fminnmp SubRegSize.i64Bit true rd rn rm
        = some (ASIMD3Same 1 SubRegSize.i64Bit 0b11000 true rd rn rm)) ∧
    (∀ size (q : Bool) (rd rn rm : VReg),
      (fmaxnm size q rd rn rm).isSome ↔
        (IsStandardFloatSize size ∧ ¬ (q = false ∧ size = SubRegSize.i64Bit))) ∧
    (∀ (q : Bool) (rd rn rm : VReg),
      fmaxnm SubRegSize.i16Bit q rd rn rm
        = some (ASIMDThreeSameFP16 0 0 0b000 q rm rn rd)) ∧
    (∀ (q : Bool) (rd rn rm : VReg),
      fmaxnm SubRegSize.i32Bit q rd rn rm
        = some (ASIMD3Same 0 SubRegSize.i8Bit 0b11000 q rd rn rm)) ∧
    (∀ (rd rn rm : VReg),
      fmaxnm SubRegSize.i64Bit true rd rn rm
        = some (ASIMD3Same 0 SubRegSize.i16Bit 0b11000 true rd rn rm)) ∧
    (∀ size (q : Bool) (rd rn rm : VReg),
      (fmla size q rd rn rm).isSome ↔
        (IsStandardFloatSize size ∧ ¬ (q = false ∧ size = SubRegSize.i64Bit))) ∧
    (∀ (q : Bool) (rd rn rm : VReg),
      fmla SubRegSize.i16Bit q rd rn rm
        = some (ASIMDThreeSameFP16 0 0 0b001 q rm rn rd)) ∧
    (∀ (q : Bool) (rd rn rm : VReg),
      fmla SubRegSize.i32Bit q rd rn rm
        = some (ASIMD3Same 0 SubRegSize.i8Bit 0b11001 q rd rn rm)) ∧
    (∀ (rd rn rm : VReg),
      fmla SubRegSize.i64Bit true rd rn rm
        = some (ASIMD3Same 0 SubRegSize.i16Bit 0b11001 true rd rn rm)) ∧
    (∀ size (q : Bool) (rd rn rm : VReg),
      (fadd size q rd rn rm).isSome ↔
        (IsStandardFloatSize size ∧ ¬ (q = false ∧ size = SubRegSize.i64Bit))) ∧
    (∀ (q : Bool) (rd rn rm : VReg),
      fadd SubRegSize.i16Bit q rd rn rm
        = some (ASIMDThreeSameFP16 0 0 0b010 q rm rn rd)) ∧
    (∀ (q : Bool) (rd rn rm : VReg),
      fadd SubRegSize.i32Bit q rd rn rm
        = some (ASIMD3Same 0 SubRegSize.i8Bit 0b11010 q rd rn rm)) ∧
    (∀ (rd rn rm : VReg),
      fadd SubRegSize.i64Bit true rd rn rm
        = some (ASIMD3Same 0 SubRegSize.i16Bit 0b11010 true rd rn rm)) ∧
    (∀ size (q : Bool) (rd rn rm : VReg),
      (fmulx size q rd rn rm).isSome ↔
        (IsStandardFloatSize size ∧ ¬ (q = false ∧ size = SubRegSize.i64Bit))) ∧
    (∀ (q : Bool) (rd rn rm : VReg),
      fmulx SubRegSize.i16Bit q rd rn rm
        = some (ASIMDThreeSameFP16 0 0 0b011 q rm rn rd)) ∧
    (∀ (q : Bool) (rd rn rm : VReg),
      fmulx SubRegSize.i32Bit q rd rn rm
        = some (ASIMD3Same 0 SubRegSize.i8Bit 0b11011 q rd rn rm)) ∧
    (∀ (rd rn rm : VReg),
      fmulx SubRegSize.i64Bit true rd rn rm
        = some (ASIMD3Same 0 SubRegSize.i16Bit 0b11011 true rd rn rm)) ∧
    (∀ size (q : Bool) (rd rn rm : VReg),
      (fcmeq size q rd rn rm).isSome ↔
        (IsStandardFloatSize size ∧ ¬ (q = false ∧ size = SubRegSize.i64Bit))) ∧
    (∀ (q : Bool) (rd rn rm : VReg),
      fcmeq SubRegSize.i16Bit q rd rn rm
        = some (ASIMDThreeSameFP16 0 0 0b100 q rm rn rd)) ∧
    (∀ (q : Bool) (rd rn rm : VReg),
      fcmeq SubRegSize.i32Bit q rd rn rm
        = some (ASIMD3Same 0 SubRegSize.i8Bit 0b11100 q rd rn rm)) ∧
    (∀ (rd rn rm : VReg),
      fcmeq SubRegSize.i64Bit true rd rn rm
        = some (ASIMD3Same 0 SubRegSize.i16Bit 0b11100 true rd rn rm)) ∧
    (∀ size (q : Bool) (rd rn rm : VReg),
      (fmax size q rd rn rm).isSome ↔
        (IsStandardFloatSize size ∧ ¬ (q = false ∧ size = SubRegSize.i64Bit))) ∧
    (∀ (q : Bool) (rd rn rm : VReg),
      fmax SubRegSize.i16Bit q rd rn rm
        = some (ASIMDThreeSameFP16 0 0 0b110 q rm rn rd)) ∧
    (∀ (q : Bool) (rd rn rm : VReg),
      fmax SubRegSize.i32Bit q rd rn rm
        = some (ASIMD3Same 0 SubRegSize.i8Bit 0b11110 q rd rn rm)) ∧
    (∀ (rd rn rm : VReg),
      fmax SubRegSize.i64Bit true rd rn rm
        = some (ASIMD3Same 0 SubRegSize.i16Bit 0b11110 true rd rn rm)) ∧
    (∀ size (q : Bool) (rd rn rm : VReg),
      (frecps size q rd rn rm).isSome ↔
        (IsStandardFloatSize size ∧ ¬ (q = false ∧ size = SubRegSize.i64Bit))) ∧
    (∀ (q : Bool) (rd rn rm : VReg),
      frecps SubRegSize.i16Bit q rd rn rm
        = some (ASIMDThreeSameFP16 0 0 0b111 q rm rn rd)) ∧
    (∀ (q : Bool) (rd rn rm : VReg),
      frecps SubRegSize.i32Bit q rd rn rm
        = some (ASIMD3Same 0 SubRegSize.i8Bit 0b11111 q rd rn rm)) ∧
    (∀ (rd rn rm : VReg),
      frecps SubRegSize.i64Bit true rd rn rm
        = some (ASIMD3Same 0 SubRegSize.i16Bit 0b11111 true rd rn rm)) ∧
    (∀ size (q : Bool) (rd rn rm : VReg),
      (fmaxnmp size q rd rn rm).isSome ↔
        (IsStandardFloatSize size ∧ ¬ (q = false ∧ size = SubRegSize.i64Bit))) ∧
    (∀ (q : Bool) (rd rn rm : VReg),
      fmaxnmp SubRegSize.i16Bit q rd rn rm
        = some (ASIMDThreeSameFP16 1 0 0b000 q rm rn rd)) ∧
    (∀ (q : Bool) (rd rn rm : VReg),
      fmaxnmp SubRegSize.i32Bit q rd rn rm
        = some (ASIMD3Same 1 SubRegSize.i8Bit 0b11000 q rd rn rm)) ∧
    (∀ (rd rn rm : VReg),
      fmaxnmp SubRegSize.i64Bit true rd rn rm
        = some (ASIMD3Same 1 SubRegSize.i16Bit 0b11000 true rd rn rm)) ∧
    (∀ size (q : Bool) (rd rn rm : VReg),
      (faddp size q rd rn rm).isSome ↔
        (IsStandardFloatSize size ∧ ¬ (q = false ∧ size = SubRegSize.i64Bit))) ∧
    (∀ (q : Bool) (rd rn rm : VReg),
      faddp SubRegSize.i16Bit q rd rn rm
        = some (ASIMDThreeSameFP16 1 0 0b010 q rm rn rd)) ∧
    (∀ (q : Bool) (rd rn rm : VReg),
      faddp SubRegSize.i32Bit q rd rn rm
        = some (ASIMD3Same 1 SubRegSize.i8Bit 0b11010 q rd rn rm)) ∧
    (∀ (rd rn rm : VReg),
      faddp SubRegSize.i64Bit true rd rn rm
        = some (ASIMD3Same 1 SubRegSize.i16Bit 0b11010 true rd rn rm)) ∧
    (∀ size (q : Bool) (rd rn rm : VReg),
      (fcmge size q rd rn rm).isSome ↔
        (IsStandardFloatSize size ∧ ¬ (q = false ∧ size = SubRegSize.i64Bit))) ∧
    (∀ (q : Bool) (rd rn rm : VReg),
      fcmge SubRegSize.i16Bit q rd rn rm
        = some (ASIMDThreeSameFP16 1 0 0b100 q rm rn rd)) ∧
    (∀ (q : Bool) (rd rn rm : VReg),
      fcmge SubRegSize.i32Bit q rd rn rm
        = some (ASIMD3Same 1 SubRegSize.i8Bit 0b11100 q rd rn rm)) ∧
    (∀ (rd rn rm : VReg),
      fcmge SubRegSize.i64Bit true rd rn rm
        = some (ASIMD3Same 1 SubRegSize.i16Bit 0b11100 true rd rn rm)) ∧
    (∀ size (q : Bool) (rd rn rm : VReg),
      (facge size q rd rn rm).isSome ↔
        (IsStandardFloatSize size ∧ ¬ (q = false ∧ size = SubRegSize.i64Bit))) ∧
    (∀ (q : Bool) (rd rn rm : VReg),
      facge SubRegSize.i16Bit q rd rn rm
        = some (ASIMDThreeSameFP16 1 0 0b101 q rm rn rd)) ∧
    (∀ (q : Bool) (rd rn rm : VReg),
      facge SubRegSize.i32Bit q rd rn rm
        = some (ASIMD3Same 1 SubRegSize.i8Bit 0b11101 q rd rn rm)) ∧
    (∀ (rd rn rm : VReg),
      facge SubRegSize.i64Bit true rd rn rm
        = some (ASIMD3Same 1 SubRegSize.i16Bit 0b11101 true rd rn rm)) ∧
    (∀ size (q : Bool) (rd rn rm : VReg),
      (fmaxp size q rd rn rm).isSome ↔
        (IsStandardFloatSize size ∧ ¬ (q = false ∧ size = SubRegSize.i64Bit))) ∧
    (∀ (q : Bool) (rd rn rm : VReg),
      fmaxp SubRegSize.i16Bit q rd rn rm
        = some (ASIMDThreeSameFP16 1 0 0b110 q rm rn rd)) ∧
    (∀ (q : Bool) (rd rn rm : VReg),
      fmaxp SubRegSize.i32Bit q rd rn rm
        = some (ASIMD3Same 1 SubRegSize.i8Bit 0b11110 q rd rn rm)) ∧
    (∀ (rd rn rm : VReg),
      fmaxp SubRegSize.i64Bit true rd rn rm
        = some (ASIMD3Same 1 SubRegSize.i16Bit 0b11110 true rd rn rm)) ∧
    (∀ size (q : Bool) (rd rn rm : VReg),
      (fdiv size q rd rn rm).isSome ↔
        (IsStandardFloatSize size ∧ ¬ (q = false ∧ size = SubRegSize.i64Bit))) ∧
    (∀ (q : Bool) (rd rn rm : VReg),
      fdiv SubRegSize.i16Bit q rd rn rm
        = some (ASIMDThreeSameFP16 1 0 0b111 q rm rn rd)) ∧
    (∀ (q : Bool) (rd rn rm : VReg),
      fdiv SubRegSize.i32Bit q rd rn rm
        = some (ASIMD3Same 1 SubRegSize.i8Bit 0b11111 q rd rn rm)) ∧
    (∀ (rd rn rm : VReg),
      fdiv SubRegSize.i64Bit true rd rn rm
        = some (ASIMD3Same 1 SubRegSize.i16Bit 0b11111 true rd rn rm)) ∧
    (∀ size (q : Bool) (rd rn rm : VReg),
      (fminnm size q rd rn rm).isSome ↔
        (IsStandardFloatSize size ∧ ¬ (q = false ∧ size = SubRegSize.i64Bit))) ∧
    (∀ (q : Bool) (rd rn rm : VReg),
      fminnm SubRegSize.i16Bit q rd rn rm
        = some (ASIMDThreeSameFP16 0 1 0b000 q rm rn rd)) ∧
    (∀ (q : Bool) (rd rn rm : VReg),
      fminnm SubRegSize.i32Bit q rd rn rm
        = some (ASIMD3Same 0 SubRegSize.i32Bit 0b11000 q rd rn rm)) ∧
    (∀ (rd rn rm : VReg),
      fminnm SubRegSize.i64Bit true rd rn rm
        = some (ASIMD3Same 0 SubRegSize.i64Bit 0b11000 true rd rn rm)) ∧
    (∀ size (q : Bool) (rd rn rm : VReg),
      (fmls size q rd rn rm).isSome ↔
        (IsStandardFloatSize size ∧ ¬ (q = false ∧ size = SubRegSize.i64Bit))) ∧
    (∀ (q : Bool) (rd rn rm : VReg),
      fmls SubRegSize.i16Bit q rd rn rm
        = some (ASIMDThreeSameFP16 0 1 0b001 q rm rn rd)) ∧
    (∀ (q : Bool) (rd rn rm : VReg),
      fmls SubRegSize.i32Bit q rd rn rm
        = some (ASIMD3Same 0 SubRegSize.i32Bit 0b11001 q rd rn rm)) ∧
    (∀ (rd rn rm : VReg),
      fmls SubRegSize.i64Bit true rd rn rm
        = some (ASIMD3Same 0 SubRegSize.i64Bit 0b11001 true rd rn rm)) ∧
    (∀ size (q : Bool) (rd rn rm : VReg),
      (fsub size q rd rn rm).isSome ↔
        (IsStandardFloatSize size ∧ ¬ (q = false ∧ size = SubRegSize.i64Bit))) ∧
    (∀ (q : Bool) (rd rn rm : VReg),
      fsub SubRegSize.i16Bit q rd rn rm
        = some (ASIMDThreeSameFP16 0 1 0b010 q rm rn rd)) ∧
    (∀ (q : Bool) (rd rn rm : VReg),
      fsub SubRegSize.i32Bit q rd rn rm
        = some (ASIMD3Same 0 SubRegSize.i32Bit 0b11010 q rd rn rm)) ∧
    (∀ (rd rn rm : VReg),
      fsub SubRegSize.i64Bit true rd rn rm
        = some (ASIMD3Same 0 SubRegSize.i64Bit 0b11010 true rd rn rm)) ∧
    (∀ size (q : Bool) (rd rn rm : VReg),
      (fmin size q rd rn rm).isSome ↔
        (IsStandardFloatSize size ∧ ¬ (q = false ∧ size = SubRegSize.i64Bit))) ∧
    (∀ (q : Bool) (rd rn rm : VReg),
      fmin SubRegSize.i16Bit q rd rn rm
        = some (ASIMDThreeSameFP16 0 1 0b110 q rm rn rd)) ∧
    (∀ (q : Bool) (rd rn rm : VReg),
      fmin SubRegSize.i32Bit q rd rn rm
        = some (ASIMD3Same 0 SubRegSize.i32Bit 0b11110 q rd rn rm)) ∧
    (∀ (rd rn rm : VReg),
      fmin SubRegSize.i64Bit true rd rn rm
        = some (ASIMD3Same 0 SubRegSize.i64Bit 0b11110 true rd rn rm)) ∧
    (∀ size (q : Bool) (rd rn rm : VReg),
      (frsqrts size q rd rn rm).isSome ↔
        (IsStandardFloatSize size ∧ ¬ (q = false ∧ size = SubRegSize.i64Bit))) ∧
    (∀ (q : Bool) (rd rn rm : VReg),
      frsqrts SubRegSize.i16Bit q rd rn rm
        = some (ASIMDThreeSameFP16 0 1 0b111 q rm rn rd)) ∧
    (∀ (q : Bool) (rd rn rm : VReg),
      frsqrts SubRegSize.i32Bit q rd rn rm
        = some (ASIMD3Same 0 SubRegSize.i32Bit 0b11111 q rd rn rm)) ∧
    (∀ (rd rn rm : VReg),
      frsqrts SubRegSize.i64Bit true rd rn rm
        = some (ASIMD3Same 0 SubRegSize.i64Bit 0b11111 true rd rn rm)) ∧
    (∀ size (q : Bool) (rd rn rm : VReg),
      (fabd size q rd rn rm).isSome ↔
        (IsStandardFloatSize size ∧ ¬ (q = false ∧ size = SubRegSize.i64Bit))) ∧
    (∀ (q : Bool) (rd rn rm : VReg),
      fabd SubRegSize.i16Bit q rd rn rm
        = some (ASIMDThreeSameFP16 1 1 0b010 q rm rn rd)) ∧
    (∀ (q : Bool) (rd rn rm : VReg),
      fabd SubRegSize.i32Bit q rd rn rm
        = some (ASIMD3Same 1 SubRegSize.i32Bit 0b11010 q rd rn rm)) ∧
    (∀ (rd rn rm : VReg),
      fabd SubRegSize.i64Bit true rd rn rm
        = some (ASIMD3Same 1 SubRegSize.i64Bit 0b11010 true rd rn rm)) ∧
    (∀ size (q : Bool) (rd rn rm : VReg),
      (fcmgt size q rd rn rm).isSome ↔
        (IsStandardFloatSize size ∧ ¬ (q = false ∧ size = SubRegSize.i64Bit))) ∧
    (∀ (q : Bool) (rd rn rm : VReg),
      fcmgt SubRegSize.i16Bit q rd rn rm
        = some (ASIMDThreeSameFP16 1 1 0b100 q rm rn rd)) ∧
    (∀ (q : Bool) (rd rn rm : VReg),
      fcmgt SubRegSize.i32Bit q rd rn rm
        = some (ASIMD3Same 1 SubRegSize.i32Bit 0b11100 q rd rn rm)) ∧
    (∀ (rd rn rm : VReg),
      fcmgt SubRegSize.i64Bit true rd rn rm
        = some (ASIMD3Same 1 SubRegSize.i64Bit 0b11100 true rd rn rm)) ∧
    (∀ size (q : Bool) (rd rn rm : VReg),
      (facgt size q rd rn rm).isSome ↔
        (IsStandardFloatSize size ∧ ¬ (q = false ∧ size = SubRegSize.i64Bit))) ∧
    (∀ (q : Bool) (rd rn rm : VReg),
      facgt SubRegSize.i16Bit q rd rn rm
        = some (ASIMDThreeSameFP16 1 1 0b101 q rm rn rd)) ∧
    (∀ (q : Bool) (rd rn rm : VReg),
      facgt SubRegSize.i32Bit q rd rn rm
        = some (ASIMD3Same 1 SubRegSize.i32Bit 0b11101 q rd rn rm)) ∧
    (∀ (rd rn rm : VReg),
      facgt SubRegSize.i64Bit true rd rn rm
        = some (ASIMD3Same 1 SubRegSize.i64Bit 0b11101 true rd rn rm)) ∧
    (∀ size (q : Bool) (rd rn rm : VReg),
      (fminp size q rd rn rm).isSome ↔
        (IsStandardFloatSize size ∧ ¬ (q = false ∧ size = SubRegSize.i64Bit))) ∧
    (∀ (q : Bool) (rd rn rm : VReg),
      fminp SubRegSize.i16Bit q rd rn rm
        = some (ASIMDThreeSameFP16 1 1 0b110 q rm rn rd)) ∧
    (∀ (q : Bool) (rd rn rm : VReg),
      fminp SubRegSize.i32Bit q rd rn rm
        = some (ASIMD3Same 1 SubRegSize.i32Bit 0b11110 q rd rn rm)) ∧
    (∀ (rd rn rm : VReg),
      fminp SubRegSize.i64Bit true rd rn rm
        = some (ASIMD3Same 1 SubRegSize.i64Bit 0b11110 true rd rn rm)) := by
  refine ⟨?_, ?_, ?_, ?_, ?_, ?_, ?_, ?_, ?_, ?_, ?_, ?_, ?_, ?_, ?_, ?_, ?_, ?_, ?_, ?_, ?_, ?_, ?_, ?_, ?_, ?_, ?_, ?_, ?_, ?_, ?_, ?_, ?_, ?_, ?_, ?_, ?_, ?_, ?_, ?_, ?_, ?_, ?_, ?_, ?_, ?_, ?_, ?_, ?_, ?_, ?_, ?_, ?_, ?_, ?_, ?_, ?_, ?_, ?_, ?_, ?_, ?_, ?_, ?_, ?_, ?_, ?_, ?_, ?_, ?_, ?_, ?_, ?_, ?_, ?_, ?_, ?_, ?_, ?_, ?_, ?_, ?_, ?_, ?_, ?_, ?_, ?_, ?_, ?_, ?_, ?_, ?_, ?_, ?_, ?_, ?_⟩
  all_goals
    first
    | (intro size q rd rn rm
       cases size <;> cases q <;>
         simp [fmul, fminnmp, fmaxnm, fmla, fadd, fmulx, fcmeq, fmax, frecps,
           fmaxnmp, faddp, fcmge, facge, fmaxp, fdiv, fminnm, fmls, fsub,
           fmin, frsqrts, fabd, fcmgt, facgt, fminp, IsStandardFloatSize])
    | (intro q rd rn rm
       cases q <;> rfl)
    | (intro rd rn rm
       rfl)

/-- C9 as stated is false for `fminnmp`: with 64-bit elements it does not
remap the size field to the 16-bit integer enumerant — its emitted word
carries size-field bits `0b11` (the 64-bit enumerant), not `0b01`, and the
word differs from the remapped encoding. -/
theorem c9_counterexample :
    (fminnmp SubRegSize.i64Bit true 0 1 2).map (fun w => (w >>> 22) &&& 3)
        = some 3 ∧
    fminnmp SubRegSize.i64Bit true 0 1 2
      ≠ some (ASIMD3Same 1 SubRegSize.i16Bit 0b11000 true 0 1 2) := by
  decide

theorem isSome_guard {c : Prop} [Decidable c] {x : Nat} :
    (if c then none else some x).isSome ↔ ¬ c := by
  split <;> simp [*]

theorem ASIMDVectorXIndexedElement_val_hlm (U L M op H : Nat)
    (size : SubRegSize) (q : Bool) (rm rn rd : VReg)
    (hU : U < 2) (hsz : size.toUnderlying < 4) (hL : L < 2) (hM : M < 2)
    (hrm : rm.val < 16) (hop : op < 16) (hH : H < 2) :
    ASIMDVectorXIndexedElement U L M op H size q rm rn rd
      = (if q then 1073741824 else 0) + U * 536870912
        + size.toUnderlying * 4194304 + L * 2097152 + M * 1048576
        + rm.val * 65536 + op * 4096 + H * 2048 + rn.val * 32 + rd.val
        + 251658240 := by
  unfold ASIMDVectorXIndexedElement
  rw [Qbit_eq]
  rw [vxWordValHLM (if q then 1 else 0) U size.toUnderlying L M op H rm.val
    rn.val rd.val hU hsz hL hM hrm hop hH rn.isLt rd.isLt]
  cases q <;> simp

theorem ASIMDVectorXIndexedElement_val_hl (U L op H : Nat)
    (size : SubRegSize) (q : Bool) (rm rn rd : VReg)
    (hU : U < 2) (hsz : size.toUnderlying < 4) (hL : L < 2)
    (hop : op < 16) (hH : H < 2) :
    ASIMDVectorXIndexedElement U L 0 op H size q rm rn rd
      = (if q then 1073741824 else 0) + U * 536870912
        + size.toUnderlying * 4194304 + L * 2097152
        + rm.val * 65536 + op * 4096 + H * 2048 + rn.val * 32 + rd.val
        + 251658240 := by
  unfold ASIMDVectorXIndexedElement
  rw [Qbit_eq]
  rw [vxWordValHL (if q then 1 else 0) U size.toUnderlying L op H rm.val
    rn.val rd.val hU hsz hL rm.isLt hop hH rn.isLt rd.isLt]
  cases q <;> simp

theorem umull_i32_eq (rd rn rm : VReg) (Index : Nat) (hrm : rm.val < 16)
    (hidx : Index < 16) :
    umull SubRegSize.i32Bit rd rn rm Index
      = some (ASIMDVectorXIndexedElement 1 ((Index >>> 1) &&& 1)
          ((Index >>> 0) &&& 1) 0b1010 ((Index >>> 2) &&& 1)
          SubRegSize.i16Bit false rm rn rd) := by
  simp only [umull]
  rw [if_neg (by decide), if_neg (by simp [hrm]),
    sizeDecCast (show SubRegSize.i32Bit ≠ SubRegSize.i8Bit by decide)]
  rw [show sizeStepDown SubRegSize.i32Bit = SubRegSize.i16Bit from rfl,
    Option.some_bind]
  rw [if_neg (not_not_intro
    (show Index < SubRegSizeInBits SubRegSize.i16Bit from hidx))]
  rfl

theorem umull_i64_eq (rd rn rm : VReg) (Index : Nat) (hidx : Index < 32) :
    umull SubRegSize.i64Bit rd rn rm Index
      = some (ASIMDVectorXIndexedElement 1 ((Index >>> 0) &&& 1) 0
          0b1010 ((Index >>> 1) &&& 1) SubRegSize.i32Bit false rm rn rd) := by
  simp only [umull]
  rw [if_neg (by decide), if_neg (by simp),
    sizeDecCast (show SubRegSize.i64Bit ≠ SubRegSize.i8Bit by decide)]
  rw [show sizeStepDown SubRegSize.i64Bit = SubRegSize.i32Bit from rfl,
    Option.some_bind]
  rw [if_neg (not_not_intro
    (show Index < SubRegSizeInBits SubRegSize.i32Bit from hidx))]
  rfl

theorem decodeHLM_val (w : Nat) :
    decodeHLM w = wordH w * 4 + wordL w * 2 + wordM w := by
  have hM : wordM w < 2 := by unfold wordM; rw [Nat.and_one_is_mod]; omega
  have hL : wordL w < 2 := by unfold wordL; rw [Nat.and_one_is_mod]; omega
  unfold decodeHLM
  rw [Nat.or_assoc]
  rw [or_eq_add (shiftLeft_and_eq_zero (wordL w) (by omega))]
  rw [or_eq_add (shiftLeft_and_eq_zero (wordH w)
    (by simp only [Nat.shiftLeft_eq]; omega))]
  simp only [Nat.shiftLeft_eq]
  omega

theorem decodeHL_val (w : Nat) : decodeHL w = wordH w * 2 + wordL w := by
  have hL : wordL w < 2 := by unfold wordL; rw [Nat.and_one_is_mod]; omega
  unfold decodeHL
  rw [or_eq_add (shiftLeft_and_eq_zero (wordH w) (by omega))]
  simp only [Nat.shiftLeft_eq]

theorem decodeHLM_div (W : Nat) :
    decodeHLM W = W / 2 ^ 11 % 2 * 4 + W / 2 ^ 21 % 2 * 2 + W / 2 ^ 20 % 2 := by
  rw [decodeHLM_val]
  unfold wordH wordL wordM
  simp only [sr_div, Nat.and_one_is_mod]

theorem decodeHL_div (W : Nat) :
    decodeHL W = W / 2 ^ 11 % 2 * 2 + W / 2 ^ 21 % 2 := by
  rw [decodeHL_val]
  unfold wordH wordL
  simp only [sr_div, Nat.and_one_is_mod]

/-- C2 as stated is false: `umull` is a vector-by-indexed-element mnemonic,
its source elements are 32-bit for a 64-bit destination size, and lane
index 4 is out of range for 32-bit elements (only lanes 0-3 exist), yet the
call does not fail — a word is emitted. -/
theorem c2_counterexample : (umull SubRegSize.i64Bit 0 0 0 4).isSome = true := by
  decide

/-- C2 (amended): `dup` validates the lane index against the element size
before bit-splitting (it fails exactly when the index is at least
`128 / size_in_bits`); the vector-by-indexed-element mnemonics such as
`umull` instead validate the index only against the source element size in
bits, so with 32-bit source elements any index below 32 — including the
out-of-range 4..31 — passes validation and a word is emitted, and with
16-bit source elements any index below 16 passes provided `rm < 16`. -/
theorem c2_index_validation :
    (∀ size (q : Bool) (rd rn : VReg) Index,
      (dup size q rd rn Index).isSome ↔
        (¬ (q = false ∧ size = SubRegSize.i64Bit) ∧
          Index < 128 / SubRegSizeInBits size)) ∧
    (∀ (rd rn rm : VReg) Index,
      (umull SubRegSize.i64Bit rd rn rm Index).isSome ↔ Index < 32) ∧
    (∀ (rd rn rm : VReg) Index,
      (umull SubRegSize.i32Bit rd rn rm Index).isSome ↔
        (rm.val < 16 ∧ Index < 16)) ∧
    (∀ size (rd rn rm : VReg) Index,
      ¬ (size = SubRegSize.i32Bit ∨ size = SubRegSize.i64Bit) →
      umull size rd rn rm Index = none) := by
  refine ⟨?_, ?_, ?_, ?_⟩
  · intro size q rd rn Index
    cases size <;> cases q <;>
      simp [dup, SubRegSize.toUnderlying, SubRegSizeInBits, isSome_guard]
  · intro rd rn rm Index
    constructor
    · intro h
      by_contra hidx
      have hnone : umull SubRegSize.i64Bit rd rn rm Index = none := by
        simp only [umull]
        rw [if_neg (by decide), if_neg (by simp),
          sizeDecCast (show SubRegSize.i64Bit ≠ SubRegSize.i8Bit by decide),
          Option.some_bind]
        rw [if_pos (show ¬ (Index < SubRegSizeInBits (sizeStepDown SubRegSize.i64Bit))
          from hidx)]
      rw [hnone] at h
      simp at h
    · intro hidx
      rw [umull_i64_eq rd rn rm Index hidx]
      rfl
  · intro rd rn rm Index
    constructor
    · intro h
      by_cases hrm : rm.val < 16
      · by_cases hidx : Index < 16
        · exact ⟨hrm, hidx⟩
        · have hnone : umull SubRegSize.i32Bit rd rn rm Index = none := by
            simp only [umull]
            rw [if_neg (by decide), if_neg (by simp [hrm]),
              sizeDecCast (show SubRegSize.i32Bit ≠ SubRegSize.i8Bit by decide),
              Option.some_bind]
            rw [if_pos (show ¬ (Index <
              SubRegSizeInBits (sizeStepDown SubRegSize.i32Bit)) from hidx)]
          rw [hnone] at h
          simp at h
      · have hnone : umull SubRegSize.i32Bit rd rn rm Index = none := by
          simp only [umull]
          rw [if_neg (by decide), if_pos ⟨trivial, hrm⟩]
        rw [hnone] at h
        simp at h
    · intro hc
      rw [umull_i32_eq rd rn rm Index hc.1 hc.2]
      rfl
  · intro size rd rn rm Index hsz
    simp only [umull]
    rw [if_pos hsz]

/-- Witness for C2 (amended) at concrete inputs. -/
theorem c2_index_validation_witness :
    ((dup SubRegSize.i32Bit true 0 0 2).isSome ↔
      (¬ (true = false ∧ SubRegSize.i32Bit = SubRegSize.i64Bit) ∧
        2 < 128 / SubRegSizeInBits SubRegSize.i32Bit)) ∧
    umull SubRegSize.i8Bit 0 0 0 0 = none :=
  ⟨c2_index_validation.1 SubRegSize.i32Bit true 0 0 2,
    c2_index_validation.2.2.2 SubRegSize.i8Bit 0 0 0 0 (by decide)⟩

/-- C5: for every legal lane index of the indexed-element mnemonic `umull`,
decoding the emitted `H:L:M` bits (16-bit source elements) or `H:L` bits
with `M` fixed to 0 (32-bit source elements) recovers the index exactly;
and whenever the three-bit `H:L:M` form is used the secondary source
register is restricted to the lower half of the register file — the encode
succeeds exactly when `rm < 16`, because the `M` bit doubles as the top bit
of that register's number. -/
theorem c5_index_roundtrip :
    (∀ (rd rn rm : VReg) Index, Index < 8 → rm.val < 16 →
      (umull SubRegSize.i32Bit rd rn rm Index).map decodeHLM = some Index) ∧
    (∀ (rd rn rm : VReg) Index, Index < 4 →
      (umull SubRegSize.i64Bit rd rn rm Index).map decodeHL = some Index) ∧
    (∀ (rd rn rm : VReg) Index, Index < 8 →
      ((umull SubRegSize.i32Bit rd rn rm Index).isSome ↔ rm.val < 16)) := by
  refine ⟨?_, ?_, ?_⟩
  · intro rd rn rm Index hidx hrm
    rw [umull_i32_eq rd rn rm Index hrm (by omega)]
    have hL : (Index >>> 1) &&& 1 < 2 := by rw [Nat.and_one_is_mod]; omega
    have hM : (Index >>> 0) &&& 1 < 2 := by rw [Nat.and_one_is_mod]; omega
    have hH : (Index >>> 2) &&& 1 < 2 := by rw [Nat.and_one_is_mod]; omega
    rw [ASIMDVectorXIndexedElement_val_hlm 1 _ _ 0b1010 _ SubRegSize.i16Bit
      false rm rn rd (by decide) (by decide) hL hM hrm (by decide) hH]
    simp only [Option.map_some', Option.some.injEq, Bool.false_eq_true,
      if_false, SubRegSize.toUnderlying, sr_div, Nat.and_one_is_mod]
    rw [decodeHLM_div]
    set W := 0 + 1 * 536870912 + 1 * 4194304 + Index / 2 ^ 1 % 2 * 2097152 +
      Index / 2 ^ 0 % 2 * 1048576 + rm.val * 65536 + 10 * 4096 +
      Index / 2 ^ 2 % 2 * 2048 + rn.val * 32 + rd.val + 251658240 with hW
    clear_value W
    have h1 : W / 2 ^ 11 % 2 = Index / 2 ^ 2 % 2 := by omega
    have h2 : W / 2 ^ 21 % 2 = Index / 2 ^ 1 % 2 := by omega
    have h3 : W / 2 ^ 20 % 2 = Index / 2 ^ 0 % 2 := by omega
    rw [h1, h2, h3]
    clear hW h1 h2 h3
    omega
  · intro rd rn rm Index hidx
    rw [umull_i64_eq rd rn rm Index (by omega)]
    have hL : (Index >>> 0) &&& 1 < 2 := by rw [Nat.and_one_is_mod]; omega
    have hH : (Index >>> 1) &&& 1 < 2 := by rw [Nat.and_one_is_mod]; omega
    rw [ASIMDVectorXIndexedElement_val_hl 1 _ 0b1010 _ SubRegSize.i32Bit
      false rm rn rd (by decide) (by decide) hL (by decide) hH]
    simp only [Option.map_some', Option.some.injEq, Bool.false_eq_true,
      if_false, SubRegSize.toUnderlying, sr_div, Nat.and_one_is_mod]
    rw [decodeHL_div]
    set W := 0 + 1 * 536870912 + 2 * 4194304 + Index / 2 ^ 0 % 2 * 2097152 +
      rm.val * 65536 + 10 * 4096 + Index / 2 ^ 1 % 2 * 2048 +
      rn.val * 32 + rd.val + 251658240 with hW
    clear_value W
    have h1 : W / 2 ^ 11 % 2 = Index / 2 ^ 1 % 2 := by omega
    have h2 : W / 2 ^ 21 % 2 = Index / 2 ^ 0 % 2 := by omega
    rw [h1, h2]
    clear hW h1 h2
    omega
  · intro rd rn rm Index hidx
    constructor
    · intro h
      by_cases hrm : rm.val < 16
      · exact hrm
      · have hnone : umull SubRegSize.i32Bit rd rn rm Index = none := by
          simp only [umull]
          rw [if_neg (by decide), if_pos ⟨trivial, hrm⟩]
        rw [hnone] at h
        simp at h
    · intro hrm
      rw [umull_i32_eq rd rn rm Index hrm (by omega)]
      rfl

/-- Witness for C5 at concrete inputs. -/
theorem c5_index_roundtrip_witness :
    (umull SubRegSize.i32Bit 1 2 3 5).map decodeHLM = some 5 ∧
    (umull SubRegSize.i64Bit 1 2 3 2).map decodeHL = some 2 ∧
    ((umull SubRegSize.i32Bit 1 2 17 5).isSome ↔ (17 : Fin 32).val < 16) :=
  ⟨c5_index_roundtrip.1 1 2 3 5 (by decide) (by decide),
    c5_index_roundtrip.2.1 1 2 3 2 (by decide),
    c5_index_roundtrip.2.2 1 2 17 5 (by decide)⟩

end ARMEmitter
